import Mathlib

/-!
# Formal model of the kb_builder plate-geometry engine

A shallow embedding, over exact rationals, of the keyboard-plate layout and
geometry engine in `src/kb_builder/builder.py` (the most complete variant in
the repository), together with the kerf handling of the legacy variant
`builder.py` at the repository root.  Coordinates, kerf values and key sizes
are modelled as `ℚ`; the Python floats carry the same decimal literals.

The CAD kernel (cadquery/FreeCAD) is out of scope of the repository; the
few kernel facts the engine relies on are modelled from the spec's
collaborator contract (§6): `move-cursor(Shape,dx,dy) -> Shape` is
*relative, stateful per shape* — invoking `center` on a workplane moves the
shared plane of that shape and returns a fresh handle, so a discarded
return value still moves the cursor.
-/

namespace KbBuilder

/-- A planar point, in the same unit as `key_spacing` (mm). -/
abbrev Point : Type := ℚ × ℚ

/-- Switch families accepted by `parse_layout` (builder.py 467-472).
`unknownSwitch` stands for any other string supplied per key via `_t`. -/
inductive SwitchType : Type
  | mx
  | alpsmx
  | mxOpen
  | mxOpenRotatable
  | alps
  | unknownSwitch
deriving DecidableEq, Repr

/-- Stabilizer families accepted by `parse_layout` (builder.py 460-465).
`unknownStab` stands for any other string supplied per key via `_s`. -/
inductive StabType : Type
  | cherry
  | costar
  | cherryCostar
  | matias
  | alps
  | unknownStab
deriving DecidableEq, Repr

/-- Case types (builder.py 399-413). -/
inductive CaseType : Type
  | noCase
  | poker
  | sandwich
  | reinforcing
  | unknownCase
deriving DecidableEq, Repr

/-- The physical layers of the plate stack (builder.py docstrings). -/
inductive Layer : Type
  | switch
  | reinforcing
  | top
  | bottom
  | closed
  | openLayer
deriving DecidableEq, Repr

/-- The `STABILIZERS` table, builder.py 53-67:
`size -> (width_between_center, switch_offset)`; `none` for sizes absent
from the dictionary. -/
def STABILIZERS (size : ℚ) : Option (ℚ × ℚ) :=
  if size = 2 then some (11.95, 0)
  else if size = 3 then some (19.05, 0)
  else if size = 4 then some (28.575, 0)
  else if size = 4.5 then some (34.671, 0)
  else if size = 5.5 then some (42.8625, 0)
  else if size = 6 then some (47.625, 9.525)
  else if size = 6.25 then some (50, 0)
  else if size = 6.5 then some (52.38, 0)
  else if size = 7 then some (57.15, 0)
  else if size = 8 then some (66.675, 0)
  else if size = 9 then some (66.675, 0)
  else if size = 10 then some (66.675, 0)
  else none

/-! ## Kerf handling (claim C3)

Three distinct places in the repository touch the user-supplied kerf. -/

/-- builder.py 427-428 (`parse_layout`): the keyboard-level kerf from a
layout configuration row is stored verbatim: `self.kerf = float(row['kerf'])`. -/
def parse_layout_kerf (row_kerf : Option ℚ) (current : ℚ) : ℚ :=
  row_kerf.getD current

/-- builder.py 701 (`cut_switch`):
`kerf = key['_k']/2 if '_k' in key else self.kerf` — a per-key kerf override
is halved, the plate-level kerf is used as stored. -/
def effective_kerf (key_k : Option ℚ) (plate_kerf : ℚ) : ℚ :=
  match key_k with
  | some v => v / 2
  | none => plate_kerf

/-- Legacy `builder.py` at the repository root, line 89
(`KeyboardCase.__init__`): `self.kerf = kerf / 2` — the constructor argument
is halved on entry. -/
def legacy_init_kerf (kerf : ℚ) : ℚ := kerf / 2

/-! ## Sandwich screw-hole balancing (claims C7, C8) -/

/-- One placement step of `layout_sandwich_holes` (builder.py 650-658):
compare the current per-axis gaps `x/(_x+1)` and `y/(_y+1)`; on a tie the
hole goes to the x side exactly when `x >= y`, otherwise to the side with
the strictly larger gap. -/
def sandwichStep (x y : ℚ) (p : ℕ × ℕ) : ℕ × ℕ :=
  if x / (p.1 + 1) = y / (p.2 + 1) then
    if x ≥ y then (p.1 + 1, p.2) else (p.1, p.2 + 1)
  else if x / (p.1 + 1) > y / (p.2 + 1) then (p.1 + 1, p.2)
  else (p.1, p.2 + 1)

/-- `free` iterations of `sandwichStep` starting from no free holes placed. -/
def placeFreeHoles (x y : ℚ) : ℕ → ℕ × ℕ
  | 0 => (0, 0)
  | n + 1 => sandwichStep x y (placeFreeHoles x y n)

/-- builder.py 637-662 (`layout_sandwich_holes`): with a valid count
(at least 4 and even) distribute the `(count-4)/2` free holes greedily and
return the per-axis counts `(x_holes, y_holes)`; otherwise leave the counts
unassigned (`none`; the caller keeps the previous values and the function
logs a diagnostic when the count is at least 4 but odd). -/
def layout_sandwich_holes (width height kerf : ℚ) (count : ℕ) : Option (ℕ × ℕ) :=
  if 4 ≤ count then
    if count % 2 = 0 then
      some (placeFreeHoles (width + kerf * 2) (height + kerf * 2) ((count - 4) / 2))
    else none
  else none

/-- Modelled from the spec (claim C7 wording): one step of the greedy
distribution in which each free hole goes to whichever axis currently has
the larger gap `axis_length/(count_on_that_axis + 1)`, with *ties broken
toward the x-axis*. -/
def claimGreedyStep (x y : ℚ) (p : ℕ × ℕ) : ℕ × ℕ :=
  if x / (p.1 + 1) ≥ y / (p.2 + 1) then (p.1 + 1, p.2) else (p.1, p.2 + 1)

/-- Modelled from the spec (claim C7 wording): the tie-toward-x greedy
distribution of `free` holes. -/
def claimGreedy (x y : ℚ) : ℕ → ℕ × ℕ
  | 0 => (0, 0)
  | n + 1 => claimGreedyStep x y (claimGreedy x y n)

/-- The amended greedy policy: each free hole goes to the axis with the
strictly larger current gap, and a tie goes to the x-axis exactly when the
x length is at least the y length (the *longer* axis). -/
def amendedGreedyStep (x y : ℚ) (p : ℕ × ℕ) : ℕ × ℕ :=
  if y / (p.2 + 1) > x / (p.1 + 1) then (p.1, p.2 + 1)
  else if x / (p.1 + 1) > y / (p.2 + 1) then (p.1 + 1, p.2)
  else if x ≥ y then (p.1 + 1, p.2) else (p.1, p.2 + 1)

/-- The amended greedy distribution of `free` holes. -/
def amendedGreedy (x y : ℚ) : ℕ → ℕ × ℕ
  | 0 => (0, 0)
  | n + 1 => amendedGreedyStep x y (amendedGreedy x y n)

/-! ## Cutout dimension constants (builder.py 713-742) -/

/-- The named dimension values computed at the top of `cut_switch`
(builder.py 713-742).  Every field is a function of the effective
(per-side) kerf; `alps_stab_inside_x` additionally depends on the key
width. -/
structure Dims : Type where
  mx_height : ℚ
  mx_width : ℚ
  mx_wing_width : ℚ
  alps_height : ℚ
  alps_width : ℚ
  wing_inside : ℚ
  wing_outside : ℚ
  mx_stab_inside_y : ℚ
  mx_stab_inside_x : ℚ
  stab_cherry_top_x : ℚ
  stab_4 : ℚ
  stab_5 : ℚ
  stab_6 : ℚ
  mx_stab_outside_x : ℚ
  stab_y_wire : ℚ
  stab_bottom_y_wire : ℚ
  stab_9 : ℚ
  stab_cherry_wing_bottom_x : ℚ
  stab_cherry_bottom_x : ℚ
  stab_12 : ℚ
  stab_13 : ℚ
  stab_cherry_bottom_wing_bottom_y : ℚ
  stab_cherry_half_width : ℚ
  stab_cherry_bottom_wing_half_width : ℚ
  stab_cherry_outside_x : ℚ
  alps_stab_top_y : ℚ
  alps_stab_bottom_y : ℚ
  alps_stab_inside_x : ℚ
  alps_stab_ouside_x : ℚ

/-- builder.py 713-742: the "standard locations with no offset". -/
def baseDims (kerf width : ℚ) : Dims :=
  let stab_y_wire := 2.3 - kerf
  let alps_stab_inside_x := (if width = 2.75 then 16.7 else 12.7) + kerf
  { mx_height := 7 - kerf
    mx_width := 7 - kerf
    mx_wing_width := 7.8 - kerf
    alps_height := 6.4 - kerf
    alps_width := 7.8 - kerf
    wing_inside := 2.9 + kerf
    wing_outside := 6 - kerf
    mx_stab_inside_y := 4.75 - kerf
    mx_stab_inside_x := 8.575 + kerf
    stab_cherry_top_x := 5.5 - kerf
    stab_4 := 10.3 + kerf
    stab_5 := 6.5 - kerf
    stab_6 := 13.6 - kerf
    mx_stab_outside_x := 15.225 - kerf
    stab_y_wire := stab_y_wire
    stab_bottom_y_wire := stab_y_wire - kerf
    stab_9 := 16.1 - kerf
    stab_cherry_wing_bottom_x := 0.5 - kerf
    stab_cherry_bottom_x := 6.75 - kerf
    stab_12 := 7.75 - kerf
    stab_13 := 6 - kerf
    stab_cherry_bottom_wing_bottom_y := 8 - kerf
    stab_cherry_half_width := 3.325 - kerf
    stab_cherry_bottom_wing_half_width := 1.65 - kerf
    stab_cherry_outside_x := 4.2 - kerf
    alps_stab_top_y := 4 + kerf
    alps_stab_bottom_y := 9 - kerf
    alps_stab_inside_x := alps_stab_inside_x
    alps_stab_ouside_x := alps_stab_inside_x + 2.7 - kerf * 2 }

/-- builder.py 754-779: on the `reinforcing` layer every structural
dimension grows by `offset = 1` and several stabilizer dimensions collapse
to shared values. -/
def reinforcingDims (kerf width : ℚ) : Dims :=
  let d := baseDims kerf width
  let offset : ℚ := 1
  let mx_width := d.mx_width + offset
  let stab_cherry_top_x :=
    d.stab_cherry_top_x + (if offset < 2.5 then 2.5 else offset)
  let stab_cherry_bottom_x :=
    d.stab_cherry_bottom_x + (if offset < 4.3 then 4.3 - kerf else offset - kerf)
  { mx_height := d.mx_height + offset
    mx_width := mx_width
    mx_wing_width := mx_width
    alps_height := d.alps_height + offset
    alps_width := d.alps_width + offset
    wing_inside := d.wing_inside + offset
    wing_outside := d.wing_outside + offset
    mx_stab_inside_y := stab_cherry_top_x
    mx_stab_inside_x := d.mx_stab_inside_x + offset
    stab_cherry_top_x := stab_cherry_top_x
    stab_4 := d.stab_4 + offset
    stab_5 := d.stab_5 + offset
    stab_6 := d.stab_6 + offset
    mx_stab_outside_x := d.mx_stab_outside_x + offset
    stab_y_wire := stab_cherry_top_x
    stab_bottom_y_wire := stab_cherry_bottom_x
    stab_9 := d.stab_9 + offset
    stab_cherry_wing_bottom_x := stab_cherry_bottom_x
    stab_cherry_bottom_x := stab_cherry_bottom_x
    stab_12 := stab_cherry_bottom_x
    stab_13 := stab_cherry_bottom_x
    stab_cherry_bottom_wing_bottom_y := stab_cherry_bottom_x
    stab_cherry_half_width := d.stab_cherry_half_width + offset
    stab_cherry_bottom_wing_half_width := d.stab_cherry_bottom_wing_half_width + offset
    stab_cherry_outside_x := d.stab_cherry_outside_x + offset
    alps_stab_top_y := d.alps_stab_top_y - offset
    alps_stab_bottom_y := d.alps_stab_bottom_y + offset
    alps_stab_inside_x := d.alps_stab_inside_x - offset
    alps_stab_ouside_x := d.alps_stab_ouside_x + offset }

/-- builder.py 744-753: on the `top` layer the switch opening becomes a
keycap-sized rectangle; `lks` is the layer-local key spacing
(`self.layers[layer].get('key_spacing', self.key_spacing)`). -/
def topDims (kerf width height lks : ℚ) : Dims :=
  let d := baseDims kerf width
  { d with
    mx_width :=
      (if height > 1 then (lks / 2) * height + 0.5 else (lks / 2) * width + 0.5) - kerf
    mx_height := (lks / 2 + 0.5) - kerf }

/-- builder.py 664-682 (`rotate_points`): rotate a point list about
`rp`.  The source takes an angle in degrees and multiplies by its cosine
and sine; the embedding is parameterized directly by those cosine and sine
values (`c`, `s`), which for the 90-degree rotation applied to vertical
keys are exactly (0, 1). -/
def rotate_points (c s : ℚ) (rp : Point) (points : List Point) : List Point :=
  points.map fun p =>
    (c * (p.1 - rp.1) - s * (p.2 - rp.2) + rp.1,
     s * (p.1 - rp.1) + c * (p.2 - rp.2) + rp.2)

/-! ## Switch-opening polygon templates (builder.py 797-900) -/

/-- builder.py 798-804: the `mx` switch opening (also used, with replaced
`mx_width`/`mx_height`, on the `top` layer).  The only template that adds
the plate-level `grow_x`/`grow_y`. -/
def mx_points (d : Dims) (grow_x grow_y : ℚ) : List Point :=
  [ (d.mx_width + grow_x, -d.mx_height - grow_y),
    (d.mx_width + grow_x, d.mx_height + grow_y),
    (-d.mx_width - grow_x, d.mx_height + grow_y),
    (-d.mx_width - grow_x, -d.mx_height - grow_y),
    (d.mx_width + grow_x, -d.mx_height - grow_y) ]

/-- builder.py 806-820: the `alpsmx` hybrid switch opening. -/
def alpsmx_points (d : Dims) : List Point :=
  [ (d.mx_width, -d.mx_height),
    (d.mx_width, -d.alps_height),
    (d.alps_width, -d.alps_height),
    (d.alps_width, d.alps_height),
    (d.mx_width, d.alps_height),
    (d.mx_width, d.mx_height),
    (-d.mx_width, d.mx_height),
    (-d.mx_width, d.alps_height),
    (-d.alps_width, d.alps_height),
    (-d.alps_width, -d.alps_height),
    (-d.mx_width, -d.alps_height),
    (-d.mx_width, -d.mx_height),
    (d.mx_width, -d.mx_height) ]

/-- builder.py 821-852: the `mx-open` switch opening; the side wings are
emitted only when `mx_width != mx_wing_width` (on the reinforcing layer the
two coincide). -/
def mx_open_points (d : Dims) : List Point :=
  [(d.mx_width, -d.mx_height)]
  ++ (if d.mx_width ≠ d.mx_wing_width then
      [ (d.mx_width, -d.wing_outside),
        (d.mx_wing_width, -d.wing_outside),
        (d.mx_wing_width, -d.wing_inside),
        (d.mx_width, -d.wing_inside),
        (d.mx_width, d.wing_inside),
        (d.mx_wing_width, d.wing_inside),
        (d.mx_wing_width, d.wing_outside),
        (d.mx_width, d.wing_outside) ]
    else [])
  ++ [ (d.mx_width, d.mx_height), (-d.mx_width, d.mx_height) ]
  ++ (if d.mx_width ≠ d.mx_wing_width then
      [ (-d.mx_width, d.wing_outside),
        (-d.mx_wing_width, d.wing_outside),
        (-d.mx_wing_width, d.wing_inside),
        (-d.mx_width, d.wing_inside),
        (-d.mx_width, -d.wing_inside),
        (-d.mx_wing_width, -d.wing_inside),
        (-d.mx_wing_width, -d.wing_outside),
        (-d.mx_width, -d.wing_outside) ]
    else [])
  ++ [ (-d.mx_width, -d.mx_height), (d.mx_width, -d.mx_height) ]

/-- builder.py 853-892: the `mx-open-rotatable` switch opening. -/
def mx_open_rotatable_points (d : Dims) : List Point :=
  [ (d.mx_width, -d.mx_height),
    (d.mx_width, -d.wing_outside),
    (d.alps_width, -d.wing_outside),
    (d.alps_width, -d.wing_inside),
    (d.mx_width, -d.wing_inside),
    (d.mx_width, d.wing_inside),
    (d.alps_width, d.wing_inside),
    (d.alps_width, d.wing_outside),
    (d.mx_width, d.wing_outside),
    (d.mx_width, d.mx_height),
    (d.wing_outside, d.mx_height),
    (d.wing_outside, d.alps_width),
    (d.wing_inside, d.alps_width),
    (d.wing_inside, d.mx_height),
    (-d.wing_inside, d.mx_height),
    (-d.wing_inside, d.alps_width),
    (-d.wing_outside, d.alps_width),
    (-d.wing_outside, d.mx_height),
    (-d.mx_width, d.mx_height),
    (-d.mx_width, d.wing_outside),
    (-d.alps_width, d.wing_outside),
    (-d.alps_width, d.wing_inside),
    (-d.mx_width, d.wing_inside),
    (-d.mx_width, -d.wing_inside),
    (-d.alps_width, -d.wing_inside),
    (-d.alps_width, -d.wing_outside),
    (-d.mx_width, -d.wing_outside),
    (-d.mx_width, -d.mx_height),
    (-d.wing_outside, -d.mx_height),
    (-d.wing_outside, -d.alps_width),
    (-d.wing_inside, -d.alps_width),
    (-d.wing_inside, -d.mx_height),
    (d.wing_inside, -d.mx_height),
    (d.wing_inside, -d.alps_width),
    (d.wing_outside, -d.alps_width),
    (d.wing_outside, -d.mx_height),
    (d.mx_width, -d.mx_height) ]

/-- builder.py 893-900: the `alps` switch opening. -/
def alps_points (d : Dims) : List Point :=
  [ (d.alps_width, -d.alps_height),
    (d.alps_width, d.alps_height),
    (-d.alps_width, d.alps_height),
    (-d.alps_width, -d.alps_height),
    (d.alps_width, -d.alps_height) ]

/-! ## Stabilizer polygon templates, 2-unit tier (builder.py 921-1061) -/

/-- builder.py 924-970: cherry-costar 2-unit stabilizer cutout (includes
the switch opening). -/
def stab_cherry_costar_2u_points (d : Dims) : List Point :=
  [ (d.mx_width, -d.mx_height),
    (d.mx_width, -d.mx_stab_inside_y),
    (d.mx_stab_inside_x, -d.mx_stab_inside_y),
    (d.mx_stab_inside_x, -d.stab_cherry_top_x),
    (d.stab_4, -d.stab_cherry_top_x),
    (d.stab_4, -d.stab_5),
    (d.stab_6, -d.stab_5),
    (d.stab_6, -d.stab_cherry_top_x),
    (d.mx_stab_outside_x, -d.stab_cherry_top_x),
    (d.mx_stab_outside_x, -d.stab_y_wire),
    (d.stab_9, -d.stab_y_wire),
    (d.stab_9, d.stab_cherry_wing_bottom_x),
    (d.mx_stab_outside_x, d.stab_cherry_wing_bottom_x),
    (d.mx_stab_outside_x, d.stab_cherry_bottom_x),
    (d.stab_6, d.stab_cherry_bottom_x),
    (d.stab_6, d.stab_12),
    (d.stab_4, d.stab_12),
    (d.stab_4, d.stab_cherry_bottom_x),
    (d.mx_stab_inside_x, d.stab_cherry_bottom_x),
    (d.mx_stab_inside_x, d.stab_13),
    (d.mx_width, d.stab_13),
    (d.mx_width, d.mx_height),
    (-d.mx_width, d.mx_height),
    (-d.mx_width, d.stab_13),
    (-d.mx_stab_inside_x, d.stab_13),
    (-d.mx_stab_inside_x, d.stab_cherry_bottom_x),
    (-d.stab_4, d.stab_cherry_bottom_x),
    (-d.stab_4, d.stab_12),
    (-d.stab_6, d.stab_12),
    (-d.stab_6, d.stab_cherry_bottom_x),
    (-d.mx_stab_outside_x, d.stab_cherry_bottom_x),
    (-d.mx_stab_outside_x, d.stab_cherry_wing_bottom_x),
    (-d.stab_9, d.stab_cherry_wing_bottom_x),
    (-d.stab_9, -d.stab_y_wire),
    (-d.mx_stab_outside_x, -d.stab_y_wire),
    (-d.mx_stab_outside_x, -d.stab_cherry_top_x),
    (-d.stab_6, -d.stab_cherry_top_x),
    (-d.stab_6, -d.stab_5),
    (-d.stab_4, -d.stab_5),
    (-d.stab_4, -d.stab_cherry_top_x),
    (-d.mx_stab_inside_x, -d.stab_cherry_top_x),
    (-d.mx_stab_inside_x, -d.mx_stab_inside_y),
    (-d.mx_width, -d.mx_stab_inside_y),
    (-d.mx_width, -d.mx_height),
    (d.mx_width, -d.mx_height) ]

/-- builder.py 977-1007: cherry 2-unit stabilizer cutout. -/
def stab_cherry_2u_points (d : Dims) : List Point :=
  [ (d.mx_stab_inside_x, -d.mx_stab_inside_y),
    (d.mx_stab_inside_x, -d.stab_cherry_top_x),
    (d.mx_stab_outside_x, -d.stab_cherry_top_x),
    (d.mx_stab_outside_x, -d.stab_y_wire),
    (d.stab_9, -d.stab_y_wire),
    (d.stab_9, d.stab_cherry_wing_bottom_x),
    (d.mx_stab_outside_x, d.stab_cherry_wing_bottom_x),
    (d.mx_stab_outside_x, d.stab_cherry_bottom_x),
    (d.stab_6, d.stab_cherry_bottom_x),
    (d.stab_6, d.stab_cherry_bottom_wing_bottom_y),
    (d.stab_4, d.stab_cherry_bottom_wing_bottom_y),
    (d.stab_4, d.stab_cherry_bottom_x),
    (d.mx_stab_inside_x, d.stab_cherry_bottom_x),
    (d.mx_stab_inside_x, d.stab_13),
    (-d.mx_stab_inside_x, d.stab_13),
    (-d.mx_stab_inside_x, d.stab_cherry_bottom_x),
    (-d.stab_4, d.stab_cherry_bottom_x),
    (-d.stab_4, d.stab_cherry_bottom_wing_bottom_y),
    (-d.stab_6, d.stab_cherry_bottom_wing_bottom_y),
    (-d.stab_6, d.stab_cherry_bottom_x),
    (-d.mx_stab_outside_x, d.stab_cherry_bottom_x),
    (-d.mx_stab_outside_x, d.stab_cherry_wing_bottom_x),
    (-d.stab_9, d.stab_cherry_wing_bottom_x),
    (-d.stab_9, -d.stab_y_wire),
    (-d.mx_stab_outside_x, -d.stab_y_wire),
    (-d.mx_stab_outside_x, -d.stab_cherry_top_x),
    (-d.mx_stab_inside_x, -d.stab_cherry_top_x),
    (-d.mx_stab_inside_x, -d.mx_stab_inside_y),
    (d.mx_stab_inside_x, -d.mx_stab_inside_y) ]

/-- builder.py 1014-1020: costar 2-unit stabilizer, left slot. -/
def stab_costar_2u_points_l (d : Dims) : List Point :=
  [ (-d.stab_4, -d.stab_5),
    (-d.stab_6, -d.stab_5),
    (-d.stab_6, d.stab_12),
    (-d.stab_4, d.stab_12),
    (-d.stab_4, -d.stab_5) ]

/-- builder.py 1021-1027: costar 2-unit stabilizer, right slot. -/
def stab_costar_2u_points_r (d : Dims) : List Point :=
  [ (d.stab_4, -d.stab_5),
    (d.stab_6, -d.stab_5),
    (d.stab_6, d.stab_12),
    (d.stab_4, d.stab_12),
    (d.stab_4, -d.stab_5) ]

/-- builder.py 1037-1043: alps/matias 2-unit stabilizer, right slot. -/
def stab_alps_2u_points_r (d : Dims) : List Point :=
  [ (d.alps_stab_inside_x, d.alps_stab_top_y),
    (d.alps_stab_ouside_x, d.alps_stab_top_y),
    (d.alps_stab_ouside_x, d.alps_stab_bottom_y),
    (d.alps_stab_inside_x, d.alps_stab_bottom_y),
    (d.alps_stab_inside_x, d.alps_stab_top_y) ]

/-- builder.py 1044-1050: alps/matias 2-unit stabilizer, left slot. -/
def stab_alps_2u_points_l (d : Dims) : List Point :=
  [ (-d.alps_stab_inside_x, d.alps_stab_top_y),
    (-d.alps_stab_ouside_x, d.alps_stab_top_y),
    (-d.alps_stab_ouside_x, d.alps_stab_bottom_y),
    (-d.alps_stab_inside_x, d.alps_stab_bottom_y),
    (-d.alps_stab_inside_x, d.alps_stab_top_y) ]

/-! ## Stabilizer polygon templates, large (3-unit and up) tier
(builder.py 1064-1203).  `x` is the looked-up half-distance between the
stabilizer centers. -/

/-- builder.py 1066-1104: cherry-costar large stabilizer cutout. -/
def stab_cherry_costar_large_points (d : Dims) (x : ℚ) : List Point :=
  [ (x - d.stab_cherry_half_width, -d.stab_y_wire),
    (x - d.stab_cherry_half_width, -d.stab_cherry_top_x),
    (x - d.stab_cherry_bottom_wing_half_width, -d.stab_cherry_top_x),
    (x - d.stab_cherry_bottom_wing_half_width, -d.stab_5),
    (x + d.stab_cherry_bottom_wing_half_width, -d.stab_5),
    (x + d.stab_cherry_bottom_wing_half_width, -d.stab_cherry_top_x),
    (x + d.stab_cherry_half_width, -d.stab_cherry_top_x),
    (x + d.stab_cherry_half_width, -d.stab_y_wire),
    (x + d.stab_cherry_outside_x, -d.stab_y_wire),
    (x + d.stab_cherry_outside_x, d.stab_cherry_wing_bottom_x),
    (x + d.stab_cherry_half_width, d.stab_cherry_wing_bottom_x),
    (x + d.stab_cherry_half_width, d.stab_cherry_bottom_x),
    (x + d.stab_cherry_bottom_wing_half_width, d.stab_cherry_bottom_x),
    (x + d.stab_cherry_bottom_wing_half_width, d.stab_12),
    (x - d.stab_cherry_bottom_wing_half_width, d.stab_12),
    (x - d.stab_cherry_bottom_wing_half_width, d.stab_cherry_bottom_x),
    (x - d.stab_cherry_half_width, d.stab_cherry_bottom_x),
    (x - d.stab_cherry_half_width, d.stab_y_wire),
    (-x + d.stab_cherry_half_width, d.stab_y_wire),
    (-x + d.stab_cherry_half_width, d.stab_cherry_bottom_x),
    (-x + d.stab_cherry_bottom_wing_half_width, d.stab_cherry_bottom_x),
    (-x + d.stab_cherry_bottom_wing_half_width, d.stab_12),
    (-x - d.stab_cherry_bottom_wing_half_width, d.stab_12),
    (-x - d.stab_cherry_bottom_wing_half_width, d.stab_cherry_bottom_x),
    (-x - d.stab_cherry_half_width, d.stab_cherry_bottom_x),
    (-x - d.stab_cherry_half_width, d.stab_cherry_wing_bottom_x),
    (-x - d.stab_cherry_outside_x, d.stab_cherry_wing_bottom_x),
    (-x - d.stab_cherry_outside_x, -d.stab_y_wire),
    (-x - d.stab_cherry_half_width, -d.stab_y_wire),
    (-x - d.stab_cherry_half_width, -d.stab_cherry_top_x),
    (-x - d.stab_cherry_bottom_wing_half_width, -d.stab_cherry_top_x),
    (-x - d.stab_cherry_bottom_wing_half_width, -d.stab_5),
    (-x + d.stab_cherry_bottom_wing_half_width, -d.stab_5),
    (-x + d.stab_cherry_bottom_wing_half_width, -d.stab_cherry_top_x),
    (-x + d.stab_cherry_half_width, -d.stab_cherry_top_x),
    (-x + d.stab_cherry_half_width, -d.stab_y_wire),
    (x - d.stab_cherry_half_width, -d.stab_y_wire) ]

/-- builder.py 1111-1141: cherry large stabilizer cutout.  The bottom edge
of the wire channel (vertices 14 and 15, source comments `#14`/`#15`) sits
at `stab_bottom_y_wire`. -/
def stab_cherry_large_points (d : Dims) (x : ℚ) : List Point :=
  [ (x - d.stab_cherry_half_width, -d.stab_y_wire),
    (x - d.stab_cherry_half_width, -d.stab_cherry_top_x),
    (x + d.stab_cherry_half_width, -d.stab_cherry_top_x),
    (x + d.stab_cherry_half_width, -d.stab_y_wire),
    (x + d.stab_cherry_outside_x, -d.stab_y_wire),
    (x + d.stab_cherry_outside_x, d.stab_cherry_wing_bottom_x),
    (x + d.stab_cherry_half_width, d.stab_cherry_wing_bottom_x),
    (x + d.stab_cherry_half_width, d.stab_cherry_bottom_x),
    (x + d.stab_cherry_bottom_wing_half_width, d.stab_cherry_bottom_x),
    (x + d.stab_cherry_bottom_wing_half_width, d.stab_cherry_bottom_wing_bottom_y),
    (x - d.stab_cherry_bottom_wing_half_width, d.stab_cherry_bottom_wing_bottom_y),
    (x - d.stab_cherry_bottom_wing_half_width, d.stab_cherry_bottom_x),
    (x - d.stab_cherry_half_width, d.stab_cherry_bottom_x),
    (x - d.stab_cherry_half_width, d.stab_bottom_y_wire),
    (-x + d.stab_cherry_half_width, d.stab_bottom_y_wire),
    (-x + d.stab_cherry_half_width, d.stab_cherry_bottom_x),
    (-x + d.stab_cherry_bottom_wing_half_width, d.stab_cherry_bottom_x),
    (-x + d.stab_cherry_bottom_wing_half_width, d.stab_cherry_bottom_wing_bottom_y),
    (-x - d.stab_cherry_bottom_wing_half_width, d.stab_cherry_bottom_wing_bottom_y),
    (-x - d.stab_cherry_bottom_wing_half_width, d.stab_cherry_bottom_x),
    (-x - d.stab_cherry_half_width, d.stab_cherry_bottom_x),
    (-x - d.stab_cherry_half_width, d.stab_cherry_wing_bottom_x),
    (-x - d.stab_cherry_outside_x, d.stab_cherry_wing_bottom_x),
    (-x - d.stab_cherry_outside_x, -d.stab_y_wire),
    (-x - d.stab_cherry_half_width, -d.stab_y_wire),
    (-x - d.stab_cherry_half_width, -d.stab_cherry_top_x),
    (-x + d.stab_cherry_half_width, -d.stab_cherry_top_x),
    (-x + d.stab_cherry_half_width, -d.stab_y_wire),
    (x - d.stab_cherry_half_width, -d.stab_y_wire) ]

/-- builder.py 1148-1154: costar/matias large stabilizer, left slot. -/
def stab_costar_large_points_l (d : Dims) (x : ℚ) : List Point :=
  [ (-x + d.stab_cherry_bottom_wing_half_width, -d.stab_5),
    (-x - d.stab_cherry_bottom_wing_half_width, -d.stab_5),
    (-x - d.stab_cherry_bottom_wing_half_width, d.stab_12),
    (-x + d.stab_cherry_bottom_wing_half_width, d.stab_12),
    (-x + d.stab_cherry_bottom_wing_half_width, -d.stab_5) ]

/-- builder.py 1155-1161: costar/matias large stabilizer, right slot. -/
def stab_costar_large_points_r (d : Dims) (x : ℚ) : List Point :=
  [ (x - d.stab_cherry_bottom_wing_half_width, -d.stab_5),
    (x + d.stab_cherry_bottom_wing_half_width, -d.stab_5),
    (x + d.stab_cherry_bottom_wing_half_width, d.stab_12),
    (x - d.stab_cherry_bottom_wing_half_width, d.stab_12),
    (x - d.stab_cherry_bottom_wing_half_width, -d.stab_5) ]

/-- builder.py 1170-1177: the inside x of the alps large stabilizer slots;
the distance is known only for 6.5-unit keys, other widths fall back to
`alps_stab_inside_x + 30` (with a logged diagnostic). -/
def alps_large_inside_x (d : Dims) (width : ℚ) : ℚ :=
  if width = 6.5 then d.alps_stab_inside_x + 31.3 else d.alps_stab_inside_x + 30

/-- builder.py 1179-1185: alps large stabilizer, right slot.
`outside_x = inside_x + 2.7 - self.kerf*2` uses the *plate* kerf. -/
def stab_alps_large_points_r (inside_x outside_x : ℚ) (d : Dims) : List Point :=
  [ (inside_x, d.alps_stab_top_y),
    (outside_x, d.alps_stab_top_y),
    (outside_x, d.alps_stab_bottom_y),
    (inside_x, d.alps_stab_bottom_y),
    (inside_x, d.alps_stab_top_y) ]

/-- builder.py 1186-1192: alps large stabilizer, left slot. -/
def stab_alps_large_points_l (inside_x outside_x : ℚ) (d : Dims) : List Point :=
  [ (-inside_x, d.alps_stab_top_y),
    (-outside_x, d.alps_stab_top_y),
    (-outside_x, d.alps_stab_bottom_y),
    (-inside_x, d.alps_stab_bottom_y),
    (-inside_x, d.alps_stab_top_y) ]

/-! ## Engine state and the CAD working-point bookkeeping -/

/-- A profile drawn on the plate, committed by `cutThruAll`. -/
inductive CutShape : Type
  | poly (points : List Point)
  | circle (radius : ℚ)
  | rect (w h : ℚ)
  | hole (diameter : ℚ)
deriving DecidableEq, Repr

/-- Which part of the engine emitted a cut (used to tell switch openings,
stabilizer cutouts and case mounting holes apart). -/
inductive CutTag : Type
  | switchCut
  | stabCut
  | sandwichHole
  | pokerHole
  | pokerSlot
  | cornerBevel
  | layerHole
  | layerPoly
  | usbCut
deriving DecidableEq, Repr

/-- One committed cut: its tag, the working point at which it was drawn
(the plane center the kernel translates the profile to), and its shape. -/
structure Cut : Type where
  tag : CutTag
  center : Point
  shape : CutShape
deriving DecidableEq, Repr

/-- The engine state of a `KeyboardCase` during one layer build:
`plate` is the identity of the workplane handle currently stored in
`self.plate`; `wp` is the working point (plane origin) of that shape,
which per the spec's collaborator contract (§6) is *stateful per shape*;
`origin` and `x_off` are the cursor accumulators (builder.py 139-141);
`cuts` are the profiles accumulated on the plate; `diags` the logged
diagnostics; `x_holes`/`y_holes` the sandwich per-axis hole counts
(builder.py 142-143). -/
structure EngineState : Type where
  plate : ℕ
  wp : Point
  origin : Point
  x_off : ℚ
  cuts : List Cut
  diags : List String
  x_holes : ℕ
  y_holes : ℕ

/-- The fresh state of a `KeyboardCase` right after `__init__`
(builder.py 128-143). -/
def initState : EngineState :=
  { plate := 0, wp := (0, 0), origin := (0, 0), x_off := 0,
    cuts := [], diags := [], x_holes := 0, y_holes := 0 }

/-- Modelled from the spec: `move-cursor(Shape,dx,dy) -> Shape` is relative
and stateful per shape (§6), so a `self.plate.center(dx, dy)` call whose
result is *discarded* still moves the shared plane, while `self.plate`
keeps naming the old handle. -/
def plate_center_drop (st : EngineState) (dx dy : ℚ) : EngineState :=
  { st with wp := (st.wp.1 + dx, st.wp.2 + dy) }

/-- Modelled from the spec: a `self.plate = self.plate.center(dx, dy)...`
chain — the plane moves and the freshly returned handle is assigned back
to `self.plate`. -/
def plate_center (st : EngineState) (dx dy : ℚ) : EngineState :=
  { st with plate := st.plate + 1, wp := (st.wp.1 + dx, st.wp.2 + dy) }

/-- `KeyboardCase.center` (builder.py 1217-1223): record the displacement
in `origin` and return the moved plate; every caller assigns the returned
(fresh) handle back to `self.plate`. -/
def center (st : EngineState) (x y : ℚ) : EngineState :=
  { st with
    plate := st.plate + 1
    wp := (st.wp.1 + x, st.wp.2 + y)
    origin := (st.origin.1 + x, st.origin.2 + y) }

/-- `KeyboardCase.recenter` (builder.py 1208-1215): invoke the plate's
`center` with the negated origin — *discarding* the returned workplane —
then reset the `origin` accumulator to (0, 0). -/
def recenter (st : EngineState) : EngineState :=
  { plate_center_drop st (-st.origin.1) (-st.origin.2) with origin := (0, 0) }

/-- Draw a profile at the current working point (polyline/circle/rect/hole,
later committed by `cutThruAll`); the returned handle is assigned back. -/
def addCut (st : EngineState) (tag : CutTag) (shape : CutShape) : EngineState :=
  { st with plate := st.plate + 1, cuts := st.cuts ++ [⟨tag, st.wp, shape⟩] }

/-- Log a diagnostic (`log.error`/`log.warning`); the build continues. -/
def addDiag (st : EngineState) (msg : String) : EngineState :=
  { st with diags := st.diags ++ [msg] }

/-! ## Keyboard configuration and key records -/

/-- Corner styles (builder.py 415-419). -/
inductive CornerType : Type
  | round
  | bevel
  | noCorner
deriving DecidableEq, Repr

/-- Per-layer override options (`self.layers[layer]`, read in
`init_plate` and `cut_switch`).  `holes`/`polygons` are `none` when the
key is absent from the layer dictionary. -/
structure LayerOpts : Type where
  inset : Bool := false
  oversize : ℚ := 0
  thickness : ℚ := 1.5
  key_spacing : Option ℚ := none
  holes : Option (List (ℚ × ℚ × ℚ)) := none
  polygons : Option (List (List Point)) := none
  usb_cutout : Bool := false
  screw_count : Option ℕ := none
  screw_radius : Option ℚ := none

/-- The whole-keyboard configuration a `KeyboardCase` carries after
`parse_layout` (builder.py 97-146, 386-527).  `width`/`height` are the
derived outer plate envelope. -/
structure CaseConfig : Type where
  switch_type : SwitchType := .mx
  stab_type : StabType := .cherry
  case_type : CaseType := .noCase
  corner_type : CornerType := .noCorner
  corners : ℚ := 0
  kerf : ℚ := 0
  key_spacing : ℚ := 19.05
  grow_x : ℚ := 0
  grow_y : ℚ := 0
  x_pad : ℚ := 0
  x_pcb_pad : ℚ := 0
  y_pad : ℚ := 0
  y_pcb_pad : ℚ := 0
  screw_count : ℕ := 4
  screw_radius : ℚ := 2
  usb_inner_width : ℚ := 10
  usb_outer_width : ℚ := 10
  usb_height : ℚ := 5
  usb_offset : ℚ := 0
  width : ℚ := 0
  height : ℚ := 0
  layers : Layer → LayerOpts := fun _ => {}

/-- `inside_width` (builder.py 525). -/
def CaseConfig.inside_width (cfg : CaseConfig) : ℚ :=
  cfg.width - cfg.x_pad * 2 - cfg.kerf * 2

/-- `inside_height` (builder.py 524). -/
def CaseConfig.inside_height (cfg : CaseConfig) : ℚ :=
  cfg.height - cfg.y_pad * 2 - cfg.kerf * 2

/-- A normalized key record as produced by `parse_layout`
(builder.py 488-509): `w` and `h` are always present (defaulted to 1);
the rest are the optional per-key overrides read by `cut_switch`
(builder.py 697-704).  The rotation overrides `_r`/`_rs` are stored as
the (cosine, sine) pair of the angle in the source's `rotate_points`. -/
structure Key : Type where
  w : ℚ := 1
  h : ℚ := 1
  x : Option ℚ := none
  y : Option ℚ := none
  t : Option SwitchType := none
  s : Option StabType := none
  k : Option ℚ := none
  r : Option (ℚ × ℚ) := none
  rs : Option (ℚ × ℚ) := none
  co : Option ℚ := none

/-! ## cut_switch (builder.py 684-1206) -/

/-- builder.py 787: the stabilizer half-distance for a key length —
`STABILIZERS[length][0] if length in STABILIZERS else STABILIZERS[2][0]`
(the 2-unit spacing 11.95 is the fallback). -/
def stab_x (length : ℚ) : ℚ :=
  match STABILIZERS length with
  | some p => p.1
  | none => 11.95

/-- builder.py 789: the stabilizer center offset for a key length —
`STABILIZERS[length][1] if length in STABILIZERS else 0`. -/
def stab_offset (length : ℚ) : ℚ :=
  match STABILIZERS length with
  | some p => p.2
  | none => 0

/-- The "Cut stabilizers" block of `cut_switch` (builder.py 913-1203):
for 2-unit and larger keys draw the stabilizer polygons of the effective
stabilizer family (rotated for vertical keys and by any per-key stabilizer
rotation); unknown families log a diagnostic and cut nothing.  This block
only draws profiles and logs — it never moves the working point. -/
def stab_section (cfg : CaseConfig) (key : Key) (d : Dims) (x width height : ℚ)
    (stab_type : StabType) (st : EngineState) : EngineState :=
  let rotate := height > width
  let stabRot (pts : List Point) : List Point :=
    let pts := if rotate then rotate_points 0 1 (0, 0) pts else pts
    match key.rs with
    | some cs => rotate_points cs.1 cs.2 (0, 0) pts
    | none => pts
  if (2 ≤ width ∧ width < 3) ∨ (rotate ∧ 2 ≤ height ∧ height < 3) then
    -- builder.py 921-1061: 2-unit stabilizer cutouts
    match stab_type with
    | .cherryCostar =>
        addCut st .stabCut (.poly (stabRot (stab_cherry_costar_2u_points d)))
    | .cherry =>
        addCut st .stabCut (.poly (stabRot (stab_cherry_2u_points d)))
    | .costar =>
        addCut (addCut st .stabCut (.poly (stabRot (stab_costar_2u_points_l d))))
          .stabCut (.poly (stabRot (stab_costar_2u_points_r d)))
    | .alps =>
        addCut (addCut st .stabCut (.poly (stabRot (stab_alps_2u_points_l d))))
          .stabCut (.poly (stabRot (stab_alps_2u_points_r d)))
    | .matias =>
        addCut (addCut st .stabCut (.poly (stabRot (stab_alps_2u_points_l d))))
          .stabCut (.poly (stabRot (stab_alps_2u_points_r d)))
    | .unknownStab => addDiag st "Unknown stab type! No stabilizer cut"
  else if 3 ≤ width ∨ (rotate ∧ 3 ≤ height) then
    -- builder.py 1064-1203: large stabilizer cutouts
    match stab_type with
    | .cherryCostar =>
        addCut st .stabCut (.poly (stabRot (stab_cherry_costar_large_points d x)))
    | .cherry =>
        addCut st .stabCut (.poly (stabRot (stab_cherry_large_points d x)))
    | .costar =>
        addCut (addCut st .stabCut (.poly (stabRot (stab_costar_large_points_l d x))))
          .stabCut (.poly (stabRot (stab_costar_large_points_r d x)))
    | .matias =>
        addCut (addCut st .stabCut (.poly (stabRot (stab_costar_large_points_l d x))))
          .stabCut (.poly (stabRot (stab_costar_large_points_r d x)))
    | .alps =>
        let st := if width = 6.5 then st
          else addDiag st "Unknown distance between alps stabs for this width"
        let inside_x := alps_large_inside_x d width
        let outside_x := inside_x + 2.7 - cfg.kerf * 2
        addCut (addCut st .stabCut
            (.poly (stabRot (stab_alps_large_points_l inside_x outside_x d))))
          .stabCut (.poly (stabRot (stab_alps_large_points_r inside_x outside_x d)))
    | .unknownStab => addDiag st "Unknown stab type! No stabilizer cut"
  else st

/-- `cut_switch` (builder.py 684-1206): cut a switch opening at
`switch_coord` and, except on the `top` layer, the stabilizer cutout for
keys of 2 units and up; finally accumulate `switch_coord`'s x into
`x_off`. -/
def cut_switch (cfg : CaseConfig) (layer : Layer) (key : Key) (switch_coord : Point)
    (st : EngineState) : EngineState :=
  let width := key.w
  let height := key.h
  let switch_type := key.t.getD cfg.switch_type
  let stab_type := key.s.getD cfg.stab_type
  let kerf := effective_kerf key.k cfg.kerf
  -- builder.py 707-709: normalized keys always carry 'h'
  let rotate := height > width
  -- builder.py 744-779: per-layer dimension overrides
  let lks := ((cfg.layers layer).key_spacing).getD cfg.key_spacing
  let switch_type := if layer = Layer.top then SwitchType.mx else switch_type
  let stab_type := if layer = Layer.top then StabType.cherry else stab_type
  let d :=
    if layer = Layer.top then topDims kerf width height lks
    else if layer = Layer.reinforcing then reinforcingDims kerf width
    else baseDims kerf width
  -- builder.py 781-789: stabilizer lookup (only for lengths of 2 and up)
  let length := if rotate then height else width
  let x := stab_x length
  let co0 := key.co.getD 0
  let center_offset :=
    if 2 ≤ length then (if co0 = 0 then stab_offset length else co0) else co0
  -- builder.py 791-795: move to cut an offset switch hole (result dropped)
  let st := if center_offset > 0 then plate_center_drop st center_offset 0 else st
  -- builder.py 797-905: the switch opening polygon
  let points :=
    match switch_type with
    | .mx => mx_points d cfg.grow_x cfg.grow_y
    | .alpsmx => alpsmx_points d
    | .mxOpen => mx_open_points d
    | .mxOpenRotatable => mx_open_rotatable_points d
    | .alps => alps_points d
    | .unknownSwitch => []
  let points := if rotate then rotate_points 0 1 (0, 0) points else points
  let points :=
    match key.r with
    | some cs => rotate_points cs.1 cs.2 (0, 0) points
    | none => points
  -- builder.py 907: center to the key and cut the opening
  let st := addCut (center st switch_coord.1 switch_coord.2) .switchCut (.poly points)
  -- builder.py 909-911: move back to the true key center (result dropped)
  let st := if center_offset > 0 then plate_center_drop st (-center_offset) 0 else st
  if layer = Layer.top then
    -- builder.py 916-919: stabilizers are never cut on the top layer
    { st with x_off := st.x_off + switch_coord.1 }
  else
    let st := stab_section cfg key d x width height stab_type st
    { st with x_off := st.x_off + switch_coord.1 }

/-! ## init_plate (builder.py 529-635) and its helpers -/

/-- One beveled corner polyline (builder.py 558-581); `sx`, `sy` pick the
corner: lower right is (1, 1), lower left (-1, 1), upper right (1, -1),
upper left (-1, -1). -/
def bevel_corner_points (he ve k c sx sy : ℚ) : List Point :=
  [ (sx * (he + k), sy * (ve + k) - sy * c),
    (sx * (he + k), sy * (ve + k)),
    (sx * (he + k) - sx * c, sy * (ve + k)),
    (sx * (he + k), sy * (ve + k) - sy * c) ]

/-- builder.py 589: the six fixed poker mounting-hole coordinates. -/
def pokerHolePoints : List Point :=
  [(-139, 9.2), (-117.3, -19.4), (-14.3, 0), (48, 37.9), (117.55, -19.4), (139, 9.2)]

/-- builder.py 606-613: one run of `for i in range(n): self.plate =
self.plate.center(dx, dy).circle(radius)` — each iteration steps the plane
and draws a sandwich screw circle at the new position. -/
def sandwichRow (dx dy radius : ℚ) : ℕ → EngineState → EngineState
  | 0, st => st
  | n + 1, st =>
      sandwichRow dx dy radius n
        (addCut (plate_center st dx dy) .sandwichHole (.circle radius))

/-- A run of `self.plate = self.plate.center(c).<draw>(shape).center(-c)`
chains, one per listed point: each draws the same shape `sh` at its point
with a there-and-back plane move (used for the poker holes/slots,
builder.py 593-596). -/
def cut_each (t : CutTag) (sh : CutShape) (pts : List Point)
    (st : EngineState) : EngineState :=
  pts.foldl (fun st c =>
    plate_center (addCut (plate_center st c.1 c.2) t sh) (-c.1) (-c.2)) st

/-- The hole loop of `cut_plate_holes` (builder.py 377-380): each listed
`(x, y, radius)` circle is cut with a there-and-back plane chain. -/
def cut_holes_list (k : ℚ) (holes : List (ℚ × ℚ × ℚ))
    (st : EngineState) : EngineState :=
  holes.foldl (fun st h =>
    plate_center
      (addCut (plate_center st h.1 h.2.1) .layerHole (.circle (h.2.2 - k)))
      (-h.1) (-h.2.1)) st

/-- `cut_plate_holes` (builder.py 371-384): move to the top left, cut each
listed circle with a there-and-back plane chain, move back to the center. -/
def cut_plate_holes (cfg : CaseConfig) (holes : List (ℚ × ℚ × ℚ))
    (st : EngineState) : EngineState :=
  let k := cfg.kerf
  let st := center st (-cfg.width / 2 + k) (-cfg.height / 2 + k)
  let st := cut_holes_list k holes st
  center st (cfg.width / 2 - k) (cfg.height / 2 - k)

/-- `cut_plate_polygons` (builder.py 359-369): draw each listed polygon at
the current working point. -/
def cut_plate_polygons (polys : List (List Point)) (st : EngineState) : EngineState :=
  polys.foldl (fun st p => addCut st .layerPoly (.poly p)) st

/-- `cut_usb_hole` (builder.py 309-357): the isosceles-trapezoid USB slot,
plus (on the bottom layer) the connector clearance rectangle.  For an
oversized plate the source widens the top line by
`tan(atan2(yDiff, xDiff)) * (oversize/4)`, which for `xDiff > 0` equals
`yDiff/xDiff * (oversize/4)`; the embedding uses that ratio directly. -/
def cut_usb_hole (cfg : CaseConfig) (layer : Layer) (st : EngineState) : EngineState :=
  let oversize := (cfg.layers layer).oversize
  let k := cfg.kerf
  let top_line_y := -(cfg.height + k * 2 + oversize) / 2
  let bottom_line_y := -(cfg.inside_height - k * 2) / 2
  let extra_distance :=
    if oversize > 0 then
      let xDiff := (cfg.usb_outer_width + k) / 2 - (cfg.usb_inner_width - k) / 2
      let yDiff := top_line_y - bottom_line_y
      yDiff / xDiff * (oversize / 4)
    else 0
  let top_line := (cfg.usb_outer_width + k) / 2
  let top_line_x_left := -top_line + cfg.usb_offset + extra_distance
  let top_line_x_right := top_line + cfg.usb_offset - extra_distance
  let bottom_line := (cfg.usb_inner_width - k) / 2
  let bottom_line_x_left := -bottom_line + cfg.usb_offset
  let bottom_line_x_right := bottom_line + cfg.usb_offset
  let st := addCut st .usbCut (.poly
    [ (top_line_x_left, top_line_y),
      (top_line_x_right, top_line_y),
      (bottom_line_x_right, bottom_line_y),
      (bottom_line_x_left, bottom_line_y),
      (top_line_x_left, top_line_y) ])
  if layer = Layer.bottom then
    addCut st .usbCut (.poly
      [ (bottom_line_x_left, bottom_line_y),
        (bottom_line_x_right, bottom_line_y),
        (bottom_line_x_right, bottom_line_y + cfg.usb_height + k * 2),
        (bottom_line_x_left, bottom_line_y + cfg.usb_height + k * 2),
        (bottom_line_x_left, bottom_line_y) ])
  else st

/-- builder.py 550-583: corner handling of `init_plate` (a round corner is
a fillet of the solid, not a profile cut; bevel corners draw four corner
triangles; any other configured type logs a diagnostic). -/
def corner_section (cfg : CaseConfig) (inset : Bool) (st : EngineState) : EngineState :=
  let he := cfg.width / 2
  let ve := cfg.height / 2
  let k := cfg.kerf
  if ¬inset ∧ cfg.corners > 0 then
    match cfg.corner_type with
    | .bevel =>
        let st := addCut st .cornerBevel (.poly (bevel_corner_points he ve k cfg.corners 1 1))
        let st := addCut st .cornerBevel (.poly (bevel_corner_points he ve k cfg.corners (-1) 1))
        let st := addCut st .cornerBevel (.poly (bevel_corner_points he ve k cfg.corners 1 (-1)))
        addCut st .cornerBevel (.poly (bevel_corner_points he ve k cfg.corners (-1) (-1)))
    | .round => st
    | .noCorner => addDiag st "Unknown corner type"
  else st

/-- builder.py 585-619: the case mounting geometry of `init_plate`:
nothing for inset layers and the none/reinforcing case types, the fixed
hole pattern for poker, the perimeter screw pattern for sandwich (each
plane move made by an assigned `self.plate.center` chain, except the two
tracked `self.center` moves), a diagnostic for anything else.  `lsc`/`lsr`
are the per-layer screw count and radius. -/
def case_section (cfg : CaseConfig) (inset : Bool) (lsc : ℕ) (lsr : ℚ)
    (st : EngineState) : EngineState :=
  let k := cfg.kerf
  if inset ∨ cfg.case_type = CaseType.noCase ∨ cfg.case_type = CaseType.reinforcing then
    st
  else if cfg.case_type = CaseType.poker then
    let rect_center := cfg.width / 2 - 3.5 / 2
    let st := cut_each .pokerHole (.hole (lsr - k)) pokerHolePoints st
    cut_each .pokerSlot (.rect (3.5 - k) (5 - k))
      [(rect_center, (9.2 : ℚ)), (-rect_center, 9.2)] st
  else if cfg.case_type = CaseType.sandwich then
    let st := center st (-cfg.width / 2 + k) (-cfg.height / 2 + k)
    let st :=
      if 4 ≤ lsc then
        let st :=
          match layout_sandwich_holes cfg.width cfg.height k lsc with
          | some p => { st with x_holes := p.1, y_holes := p.2 }
          | none =>
              addDiag st "Invalid hole configuration! Need at least 4 holes and must be divisible by 2!"
        let radius := lsr - k
        let x_gap := (cfg.width - 4 * cfg.screw_radius + 1) / (st.x_holes + 1)
        let y_gap := (cfg.height - 4 * cfg.screw_radius + 1) / (st.y_holes + 1)
        let hole_distance := cfg.screw_radius * 2 - 0.5 - k
        let st2 := plate_center st hole_distance hole_distance
        let st2 := sandwichRow x_gap 0 radius (st.x_holes + 1) st2
        let st2 := sandwichRow 0 y_gap radius (st.y_holes + 1) st2
        let st2 := sandwichRow (-x_gap) 0 radius (st.x_holes + 1) st2
        let st2 := sandwichRow 0 (-y_gap) radius (st.y_holes + 1) st2
        plate_center st2 (-hole_distance) (-hole_distance)
      else addDiag st "Not adding holes. Why?!"
    center st (cfg.width / 2 - k) (cfg.height / 2 - k)
  else addDiag st "Unknown case type"

/-- builder.py 621-631: the per-layer extras of `init_plate` — any listed
holes and polygons, and the USB cutout when the layer requests it. -/
def extras_section (cfg : CaseConfig) (layer : Layer) (st : EngineState) : EngineState :=
  let o := cfg.layers layer
  let st := match o.holes with
    | some holes => cut_plate_holes cfg holes st
    | none => st
  let st := match o.polygons with
    | some polys => cut_plate_polygons polys st
    | none => st
  if o.usb_cutout then cut_usb_hole cfg layer st else st

/-- `init_plate` (builder.py 529-635): start a fresh base plate (a new
extruded box with a workplane on its bottom face, so the working point is
the plate center), cut corner bevels, the case mounting pattern, any
per-layer holes and polygons, and the USB slot; finally set the `origin`
accumulator to (0, 0) (builder.py 633). -/
def init_plate (cfg : CaseConfig) (layer : Layer) (st0 : EngineState) : EngineState :=
  let o := cfg.layers layer
  let inset := o.inset
  let st := { st0 with plate := st0.plate + 1, wp := (0, 0), cuts := [] }
  -- builder.py 542-548: per-layer screw overrides
  let lsc := o.screw_count.getD cfg.screw_count
  let lsr := o.screw_radius.getD cfg.screw_radius
  let st := corner_section cfg inset st
  let st := case_section cfg inset lsc lsr st
  let st := extras_section cfg layer st
  { st with origin := (0, 0) }

/-! ## create_switch_layer (builder.py 185-233) -/

/-- The loop-carried state of `create_switch_layer`: `prev_width` is
`None` before the first key, `prev_y_off` starts at 0 (builder.py 191-192). -/
structure TravState : Type where
  engine : EngineState
  prev_width : Option ℚ
  prev_y_off : ℚ

/-- One iteration of the key loop of `create_switch_layer`
(builder.py 198-230).  `firstRow` and `firstKey` are `r == 0` and
`k == 0`. -/
def processKey (cfg : CaseConfig) (layer : Layer) (firstRow firstKey : Bool)
    (key : Key) (ts : TravState) : TravState :=
  let s := cfg.key_spacing
  -- builder.py 199-205
  let x1 := (key.x.getD 0) * s
  let kx := x1
  let y1 := if firstKey then (key.y.getD 0) * s else 0
  -- builder.py 207-218
  let (st, x2) :=
    if firstRow ∧ firstKey then
      (center ts.engine (key.w * s / 2) (s / 2), x1 + (cfg.x_pad + cfg.x_pcb_pad))
    else if firstKey then
      ({ center ts.engine (-ts.engine.x_off) s with x_off := 0 },
       x1 + (s / 2 + key.w * s / 2))
    else
      (ts.engine, x1 + ((ts.prev_width.getD 0) * s / 2 + key.w * s / 2))
  let y2 := if firstRow ∧ firstKey then y1 + (cfg.y_pad + cfg.y_pcb_pad) else y1
  let st :=
    if firstRow ∧ firstKey then
      { st with x_off := -(x2 - (s / 2 + key.w * s / 2) - kx) }
    else st
  -- builder.py 220-226
  let y3 := if ts.prev_y_off ≠ 0 then y2 - ts.prev_y_off else y2
  let new_y_off := if key.h > 1 then key.h * s / 2 - s / 2 else 0
  let y4 := y3 + new_y_off
  -- builder.py 229-230
  let st := cut_switch cfg layer key (x2, y4) st
  { engine := st, prev_width := some key.w, prev_y_off := new_y_off }

/-- The inner key loop of `create_switch_layer`. -/
def processKeys (cfg : CaseConfig) (layer : Layer) (firstRow : Bool) :
    Bool → List Key → TravState → TravState
  | _, [], ts => ts
  | firstKey, key :: rest, ts =>
      processKeys cfg layer firstRow false rest
        (processKey cfg layer firstRow firstKey key ts)

/-- The outer row loop of `create_switch_layer`. -/
def processRows (cfg : CaseConfig) (layer : Layer) :
    Bool → List (List Key) → TravState → TravState
  | _, [], ts => ts
  | firstRow, row :: rest, ts =>
      processRows cfg layer false rest (processKeys cfg layer firstRow true row ts)

/-- `create_switch_layer` (builder.py 185-233): initialize the base plate,
move the cursor to the top left of the key block, traverse the layout in
row-major order cutting every key, then recenter. -/
def create_switch_layer (cfg : CaseConfig) (layout : List (List Key)) (layer : Layer)
    (st : EngineState) : EngineState :=
  let st := init_plate cfg layer st
  let st := center st (-cfg.width / 2) (-cfg.height / 2)
  let ts := processRows cfg layer true layout ⟨st, none, 0⟩
  recenter ts.engine

/-- The centers of the switch openings cut during a build, in cut order. -/
def switchCutCenters (st : EngineState) : List Point :=
  (st.cuts.filter fun c => c.tag = CutTag.switchCut).map Cut.center

/-- The sandwich screw holes cut during a build. -/
def sandwichHoleCuts (st : EngineState) : List Cut :=
  st.cuts.filter fun c => c.tag = CutTag.sandwichHole

/-- The stabilizer cutouts emitted during a build. -/
def stabCuts (st : EngineState) : List Cut :=
  st.cuts.filter fun c => c.tag = CutTag.stabCut

/-! ## Observation helpers for the theorems -/

/-- The vertex list of a polygon cut (empty for circles/rects/holes). -/
def cutPoints : Cut → List Point
  | ⟨_, _, CutShape.poly pts⟩ => pts
  | _ => []

/-- The polygon of the first switch-opening cut of a build. -/
def firstSwitchPoly (st : EngineState) : List Point :=
  ((st.cuts.filter fun c => c.tag = CutTag.switchCut).map cutPoints).getD 0 []

/-- The polygon of the first stabilizer cut of a build. -/
def firstStabPoly (st : EngineState) : List Point :=
  ((stabCuts st).map cutPoints).getD 0 []

/-- Maximum of a nonempty rational list (0 for the empty list). -/
def listMax : List ℚ → ℚ
  | [] => 0
  | [a] => a
  | a :: b :: r => max a (listMax (b :: r))

/-- Minimum of a nonempty rational list (0 for the empty list). -/
def listMin : List ℚ → ℚ
  | [] => 0
  | [a] => a
  | a :: b :: r => min a (listMin (b :: r))

/-- Width of a polygon's axis-aligned bounding box. -/
def bboxW (pts : List Point) : ℚ :=
  listMax (pts.map Prod.fst) - listMin (pts.map Prod.fst)

/-- Height of a polygon's axis-aligned bounding box. -/
def bboxH (pts : List Point) : ℚ :=
  listMax (pts.map Prod.snd) - listMin (pts.map Prod.snd)

/-- A coordinate moved from `a` to `b` by at most one application of the
kerf `k`, in either direction: the formal rendering of "kerf compensation
is applied exactly once per vertex coordinate, with a consistent sign". -/
def shiftOK (k a b : ℚ) : Prop :=
  b - a = -k ∨ b - a = 0 ∨ b - a = k

/-- A template family `f` (a polygon as a function of the kerf) applies
kerf compensation uniformly: against the kerf-0 template, every vertex
coordinate moves by exactly `-k`, `0` or `+k` — so every cut edge moves by
the same physical amount. -/
def UniformKerfShift (f : ℚ → List Point) : Prop :=
  ∀ k : ℚ, List.Forall₂ (fun p q => shiftOK k p.1 q.1 ∧ shiftOK k p.2 q.2) (f 0) (f k)

/-- The working point's displacement from the plate center net of the
`origin` accumulator: cursor bookkeeping is exact when this is (0, 0). -/
def drift (st : EngineState) : Point :=
  (st.wp.1 - st.origin.1, st.wp.2 - st.origin.2)

/-- The statement of claim C4 at kerf `kf` and increment `Δ`: a 1-unit
mx/cherry key cut on the switch layer (grow 0) yields exactly one cut, a
closed 5-point rectangle with corners at plus/minus `7 - kf`, and raising
the kerf by `Δ` shrinks the cutout's bounding box by `2 * Δ` on each
axis. -/
def C4Prop (kf Δ : ℚ) : Prop :=
  (cut_switch { kerf := kf } Layer.switch {} (0, 0) initState).cuts =
    [⟨CutTag.switchCut, (0, 0), CutShape.poly
      [(7 - kf, -(7 - kf)), (7 - kf, 7 - kf), (-(7 - kf), 7 - kf),
       (-(7 - kf), -(7 - kf)), (7 - kf, -(7 - kf))]⟩] ∧
  bboxW (firstSwitchPoly (cut_switch { kerf := kf + Δ } Layer.switch {} (0, 0) initState)) =
    bboxW (firstSwitchPoly (cut_switch { kerf := kf } Layer.switch {} (0, 0) initState)) - 2 * Δ ∧
  bboxH (firstSwitchPoly (cut_switch { kerf := kf + Δ } Layer.switch {} (0, 0) initState)) =
    bboxH (firstSwitchPoly (cut_switch { kerf := kf } Layer.switch {} (0, 0) initState)) - 2 * Δ

/-- The statement of (amended) claim C7 for plate `w`-by-`h`, kerf `k` and
screw count `c`: `layout_sandwich_holes` realizes the greedy distribution
whose ties go to the currently *longer* axis, and the two representative
instances from the spec. -/
def C7Prop (w h k : ℚ) (c : ℕ) : Prop :=
  layout_sandwich_holes w h k c =
    some (amendedGreedy (w + k * 2) (h + k * 2) ((c - 4) / 2)) ∧
  layout_sandwich_holes 300 200 0 8 = some (1, 1) ∧
  ∀ s : ℚ, 0 < s → layout_sandwich_holes s s 0 8 = some (1, 1)

/-- A plain (caseless) configuration with the given key spacing, paddings,
envelope, kerf and grow values — the settings that influence switch-cut
placement (all others at their `__init__` defaults: mx switches, cherry
stabilizers, no case). -/
def plainCfg (s xp xpc yp ypc W H kf gx gy : ℚ) : CaseConfig :=
  { key_spacing := s, x_pad := xp, x_pcb_pad := xpc, y_pad := yp, y_pcb_pad := ypc,
    width := W, height := H, kerf := kf, grow_x := gx, grow_y := gy }

/-- A sandwich-case configuration with the given envelope, kerf and screw
spec (all other settings at their `__init__` defaults). -/
def sandwichCfg (W H k r : ℚ) (n : ℕ) : CaseConfig :=
  { case_type := CaseType.sandwich, kerf := k, screw_count := n,
    screw_radius := r, width := W, height := H }

/-- The statement of (amended) claim C8 for an invalid-low screw count `n`
and an odd screw count `m`: a count below 4 cuts no sandwich holes and
logs a diagnostic, while an odd count of at least 4 logs the
invalid-configuration diagnostic but still cuts the four corner-pattern
holes (the per-axis counts keep their initial value 0). -/
def C8Prop (W H k r : ℚ) (layer : Layer) (n m : ℕ) : Prop :=
  (sandwichHoleCuts (init_plate (sandwichCfg W H k r n) layer initState) = [] ∧
    "Not adding holes. Why?!" ∈ (init_plate (sandwichCfg W H k r n) layer initState).diags) ∧
  ((sandwichHoleCuts (init_plate (sandwichCfg W H k r m) layer initState)).length = 4 ∧
    "Invalid hole configuration! Need at least 4 holes and must be divisible by 2!" ∈
      (init_plate (sandwichCfg W H k r m) layer initState).diags)

/-- The statement of claim C9 for a key of width `w` whose stabilizer
lookup yields a positive center offset: `cut_switch` cuts the switch hole
offset by `stab_offset w`, returns, and cuts the cherry stabilizer at the
true key center; and every length of 2 and up absent from the
`STABILIZERS` table falls back to the 2-unit spacing. -/
def C9Prop (w : ℚ) (c : Point) (st : EngineState) (cfg : CaseConfig) : Prop :=
  ((cut_switch cfg Layer.switch { w := w, s := some StabType.cherry } c st).cuts.map
      fun cut => (cut.tag, cut.center)) =
    (st.cuts.map fun cut => (cut.tag, cut.center)) ++
      [(CutTag.switchCut, (st.wp.1 + stab_offset w + c.1, st.wp.2 + c.2)),
       (CutTag.stabCut, (st.wp.1 + c.1, st.wp.2 + c.2))] ∧
  (cut_switch cfg Layer.switch { w := w, s := some StabType.cherry } c st).wp =
    (st.wp.1 + c.1, st.wp.2 + c.2) ∧
  (cut_switch cfg Layer.switch { w := w, s := some StabType.cherry } c st).origin =
    (st.origin.1 + c.1, st.origin.2 + c.2) ∧
  (∀ l : ℚ, 2 ≤ l → STABILIZERS l = none → stab_x l = 11.95) ∧
  STABILIZERS 2 = some (11.95, 0)

/-! # Lemmas: how each primitive operation affects the engine state -/

@[simp] lemma addCut_wp (st : EngineState) (t : CutTag) (s : CutShape) :
    (addCut st t s).wp = st.wp := rfl

@[simp] lemma addCut_origin (st : EngineState) (t : CutTag) (s : CutShape) :
    (addCut st t s).origin = st.origin := rfl

@[simp] lemma addCut_x_off (st : EngineState) (t : CutTag) (s : CutShape) :
    (addCut st t s).x_off = st.x_off := rfl

@[simp] lemma addCut_cuts (st : EngineState) (t : CutTag) (s : CutShape) :
    (addCut st t s).cuts = st.cuts ++ [⟨t, st.wp, s⟩] := rfl

@[simp] lemma addCut_diags (st : EngineState) (t : CutTag) (s : CutShape) :
    (addCut st t s).diags = st.diags := rfl

@[simp] lemma addDiag_wp (st : EngineState) (m : String) : (addDiag st m).wp = st.wp := rfl

@[simp] lemma addDiag_origin (st : EngineState) (m : String) :
    (addDiag st m).origin = st.origin := rfl

@[simp] lemma addDiag_x_off (st : EngineState) (m : String) :
    (addDiag st m).x_off = st.x_off := rfl

@[simp] lemma addDiag_cuts (st : EngineState) (m : String) :
    (addDiag st m).cuts = st.cuts := rfl

@[simp] lemma addDiag_diags (st : EngineState) (m : String) :
    (addDiag st m).diags = st.diags ++ [m] := rfl

@[simp] lemma center_wp (st : EngineState) (x y : ℚ) :
    (center st x y).wp = (st.wp.1 + x, st.wp.2 + y) := rfl

@[simp] lemma center_origin (st : EngineState) (x y : ℚ) :
    (center st x y).origin = (st.origin.1 + x, st.origin.2 + y) := rfl

@[simp] lemma center_x_off (st : EngineState) (x y : ℚ) :
    (center st x y).x_off = st.x_off := rfl

@[simp] lemma center_cuts (st : EngineState) (x y : ℚ) :
    (center st x y).cuts = st.cuts := rfl

@[simp] lemma center_diags (st : EngineState) (x y : ℚ) :
    (center st x y).diags = st.diags := rfl

@[simp] lemma plate_center_wp (st : EngineState) (x y : ℚ) :
    (plate_center st x y).wp = (st.wp.1 + x, st.wp.2 + y) := rfl

@[simp] lemma plate_center_origin (st : EngineState) (x y : ℚ) :
    (plate_center st x y).origin = st.origin := rfl

@[simp] lemma plate_center_cuts (st : EngineState) (x y : ℚ) :
    (plate_center st x y).cuts = st.cuts := rfl

@[simp] lemma plate_center_diags (st : EngineState) (x y : ℚ) :
    (plate_center st x y).diags = st.diags := rfl

@[simp] lemma plate_center_x_off (st : EngineState) (x y : ℚ) :
    (plate_center st x y).x_off = st.x_off := rfl

@[simp] lemma plate_center_drop_wp (st : EngineState) (x y : ℚ) :
    (plate_center_drop st x y).wp = (st.wp.1 + x, st.wp.2 + y) := rfl

@[simp] lemma plate_center_drop_origin (st : EngineState) (x y : ℚ) :
    (plate_center_drop st x y).origin = st.origin := rfl

@[simp] lemma plate_center_drop_x_off (st : EngineState) (x y : ℚ) :
    (plate_center_drop st x y).x_off = st.x_off := rfl

@[simp] lemma plate_center_drop_cuts (st : EngineState) (x y : ℚ) :
    (plate_center_drop st x y).cuts = st.cuts := rfl

@[simp] lemma plate_center_drop_plate (st : EngineState) (x y : ℚ) :
    (plate_center_drop st x y).plate = st.plate := rfl

lemma stab_section_wp (cfg : CaseConfig) (key : Key) (d : Dims) (x width height : ℚ)
    (stab_type : StabType) (st : EngineState) :
    (stab_section cfg key d x width height stab_type st).wp = st.wp := by
  cases stab_type <;> (unfold stab_section; dsimp only; split_ifs <;> rfl)

lemma stab_section_origin (cfg : CaseConfig) (key : Key) (d : Dims) (x width height : ℚ)
    (stab_type : StabType) (st : EngineState) :
    (stab_section cfg key d x width height stab_type st).origin = st.origin := by
  cases stab_type <;> (unfold stab_section; dsimp only; split_ifs <;> rfl)

lemma stab_section_x_off (cfg : CaseConfig) (key : Key) (d : Dims) (x width height : ℚ)
    (stab_type : StabType) (st : EngineState) :
    (stab_section cfg key d x width height stab_type st).x_off = st.x_off := by
  cases stab_type <;> (unfold stab_section; dsimp only; split_ifs <;> rfl)

lemma cut_switch_wp (cfg : CaseConfig) (layer : Layer) (key : Key) (c : Point)
    (st : EngineState) :
    (cut_switch cfg layer key c st).wp = (st.wp.1 + c.1, st.wp.2 + c.2) := by
  unfold cut_switch
  dsimp only
  split_ifs <;> simp [stab_section_wp, Prod.ext_iff] <;> ring

lemma cut_switch_origin (cfg : CaseConfig) (layer : Layer) (key : Key) (c : Point)
    (st : EngineState) :
    (cut_switch cfg layer key c st).origin = (st.origin.1 + c.1, st.origin.2 + c.2) := by
  unfold cut_switch
  dsimp only
  split_ifs <;> simp [stab_section_origin]

lemma cut_switch_x_off (cfg : CaseConfig) (layer : Layer) (key : Key) (c : Point)
    (st : EngineState) :
    (cut_switch cfg layer key c st).x_off = st.x_off + c.1 := by
  unfold cut_switch
  dsimp only
  split_ifs <;> simp [stab_section_x_off]

/-! # Claim theorems -/

/-- C10: `recenter` invokes the plate's `center` method with the negated
origin but discards the returned workplane — the stored plate handle, the
accumulated cuts, the diagnostics and `x_off` are all unchanged; the only
engine fields it modifies are the origin accumulator (reset to (0, 0)),
the shape's working point having been moved by the discarded stateful
call.  By contrast `center` returns a moved plate, which its callers
assign back to `self.plate` (a fresh handle), and accumulates the
displacement into `origin`. -/
theorem C10_recenter_frame (st : EngineState) (x y : ℚ) :
    (recenter st).plate = st.plate ∧
    (recenter st).cuts = st.cuts ∧
    (recenter st).diags = st.diags ∧
    (recenter st).x_off = st.x_off ∧
    (recenter st).origin = (0, 0) ∧
    (recenter st).wp = (st.wp.1 - st.origin.1, st.wp.2 - st.origin.2) ∧
    (center st x y).plate ≠ st.plate ∧
    (center st x y).wp = (st.wp.1 + x, st.wp.2 + y) ∧
    (center st x y).origin = (st.origin.1 + x, st.origin.2 + y) := by
  refine ⟨rfl, rfl, rfl, rfl, rfl, ?_, ?_, rfl, rfl⟩
  · exact Prod.ext (by show st.wp.1 + -st.origin.1 = _; ring)
      (by show st.wp.2 + -st.origin.2 = _; ring)
  · exact fun h => Nat.succ_ne_self st.plate h

/-- C3 (counterexample): a layout configuration row setting `kerf: 1`
yields an internal plate kerf of 1, not 1/2 — `parse_layout` stores the
keyboard-level kerf verbatim and `cut_switch` uses it as the per-side
offset unchanged, so the 1-unit mx cutout corner lands at 7 - 1 = 6
rather than 7 - 1/2. -/
theorem C3_counterexample :
    parse_layout_kerf (some 1) 0 = 1 ∧ (1 : ℚ) ≠ 1 / 2 ∧
    effective_kerf none (parse_layout_kerf (some 1) 0) = 1 ∧
    (cut_switch { kerf := parse_layout_kerf (some 1) 0 } Layer.switch {} (0, 0) initState).cuts =
      [⟨CutTag.switchCut, (0, 0), CutShape.poly
        [(6, -6), (6, 6), (-6, 6), (-6, -6), (6, -6)]⟩] ∧
    (6 : ℚ) ≠ 7 - 1 / 2 := by
  refine ⟨rfl, by norm_num, rfl, ?_, by norm_num⟩
  simp [cut_switch, stab_section, parse_layout_kerf, effective_kerf, initState, baseDims,
    mx_points, addCut, center, Prod.ext_iff]
  norm_num

/-- C3 (amended): only the per-key kerf override `_k` and the legacy
root-level constructor argument are halved; the keyboard-level kerf from
the layout configuration is stored and used verbatim as the per-side
offset. -/
theorem C3_amended_kerf_halving (v plate_kerf kerf : ℚ) :
    effective_kerf (some v) plate_kerf = v / 2 ∧
    legacy_init_kerf kerf = kerf / 2 ∧
    parse_layout_kerf (some v) plate_kerf = v ∧
    effective_kerf none plate_kerf = plate_kerf := by
  exact ⟨rfl, rfl, rfl, rfl⟩

lemma sandwichStep_eq_amended (x y : ℚ) (p : ℕ × ℕ) :
    sandwichStep x y p = amendedGreedyStep x y p := by
  unfold sandwichStep amendedGreedyStep
  rcases lt_trichotomy (x / (p.1 + 1)) (y / (p.2 + 1)) with h | h | h <;>
    split_ifs <;> first | rfl | linarith

lemma placeFreeHoles_eq_amended (x y : ℚ) (n : ℕ) :
    placeFreeHoles x y n = amendedGreedy x y n := by
  induction n with
  | zero => rfl
  | succ n ih => simp [placeFreeHoles, amendedGreedy, ih, sandwichStep_eq_amended]

lemma placeFreeHoles_two (x y : ℚ) :
    placeFreeHoles x y 2 = sandwichStep x y (sandwichStep x y (0, 0)) := rfl

/-- C7 (counterexample): on a 2-by-4 plate with 8 screws, the code
allocates both free holes to the y axis — the tie at the second placement
(gaps 2/1 and 4/2) goes to the *longer* axis, which is y — whereas the
claimed tie-toward-the-x-axis greedy yields one hole per axis. -/
theorem C7_counterexample :
    layout_sandwich_holes 2 4 0 8 = some (0, 2) ∧
    claimGreedy (2 + 0 * 2) (4 + 0 * 2) ((8 - 4) / 2) = (1, 1) ∧
    layout_sandwich_holes 2 4 0 8 ≠
      some (claimGreedy (2 + 0 * 2) (4 + 0 * 2) ((8 - 4) / 2)) := by
  have h1 : layout_sandwich_holes 2 4 0 8 = some (0, 2) := by
    norm_num [layout_sandwich_holes, placeFreeHoles, sandwichStep]
  have h2 : claimGreedy (2 + 0 * 2) (4 + 0 * 2) ((8 - 4) / 2) = (1, 1) := by
    norm_num [claimGreedy, claimGreedyStep]
  refine ⟨h1, h2, ?_⟩
  rw [h1, h2]
  simp

/-- C7 (amended): `layout_sandwich_holes` places each free hole on the
axis with the strictly larger gap `axis_length/(count+1)`, recomputed
after each placement, with ties broken toward the currently *longer* axis
(the x axis wins a tie only when the x length is at least the y length);
the 300-by-200 8-screw instance yields one free hole per axis, and 8
screws on any square plate split the two free holes evenly. -/
theorem C7_amended_sandwich_balancing (w h k : ℚ) (c : ℕ) (h4 : 4 ≤ c)
    (he : c % 2 = 0) : C7Prop w h k c := by
  refine ⟨?_, ?_, ?_⟩
  · unfold layout_sandwich_holes
    rw [if_pos h4, if_pos he, placeFreeHoles_eq_amended]
  · norm_num [layout_sandwich_holes, placeFreeHoles, sandwichStep]
  · intro s hs
    have hhalf : s / 2 < s := div_lt_self hs (by norm_num)
    norm_num [layout_sandwich_holes, placeFreeHoles, sandwichStep]
    split_ifs with h1 h2 <;> first | rfl | linarith

/-- C7 (witness): the amended theorem applied to the spec's representative
300-by-200, 8-screw instance. -/
theorem C7_witness : C7Prop 300 200 0 8 :=
  C7_amended_sandwich_balancing 300 200 0 8 (by norm_num) (by norm_num)

/-- C5: kerf is *not* applied exactly once per vertex in every template.
`stab_bottom_y_wire = stab_y_wire - kerf` (builder.py 729) subtracts the
kerf from a constant that already contains it, so the bottom wire edge of
the large (3-unit and up) cherry stabilizer cutout (vertices 14/15 of
builder.py 1111-1141) sits at `2.3 - 2*kerf` and moves by twice the kerf:
at kerf 1 a 3-unit cherry key's stabilizer polygon has vertex 13 at
y = 0.3 where single application (as on every other edge, and as in the
legacy root-level builder, which uses `stab_bottom_y_wire - kerf` with an
un-kerfed constant) would give 1.3. -/
theorem C5_kerf_double_application :
    (¬ UniformKerfShift fun k => stab_cherry_large_points (baseDims k 3) (stab_x 3)) ∧
    (firstStabPoly (cut_switch { kerf := 0 } Layer.switch { w := 3 } (0, 0)
        initState)).getD 13 (0, 0) = (15.725, 2.3) ∧
    (firstStabPoly (cut_switch { kerf := 1 } Layer.switch { w := 3 } (0, 0)
        initState)).getD 13 (0, 0) = (16.725, 0.3) ∧
    ¬ shiftOK 1 2.3 0.3 ∧ shiftOK 1 (-2.3) (-1.3) := by
  refine ⟨?_, ?_, ?_, ?_, ?_⟩
  · intro hU
    have h1 := hU 1
    norm_num [baseDims, stab_x, STABILIZERS, stab_cherry_large_points,
      List.forall₂_cons, shiftOK] at h1
  · simp [firstStabPoly, stabCuts, cut_switch, stab_section, effective_kerf,
      initState, baseDims, stab_x, stab_offset, STABILIZERS, stab_cherry_large_points,
      cutPoints, addCut, center, List.getD, Prod.ext_iff]
    norm_num
  · simp [firstStabPoly, stabCuts, cut_switch, stab_section, effective_kerf,
      initState, baseDims, stab_x, stab_offset, STABILIZERS, stab_cherry_large_points,
      cutPoints, addCut, center, List.getD, Prod.ext_iff]
    norm_num
  · norm_num [shiftOK]
  · norm_num [shiftOK]

lemma listMax_rect_x (a : ℚ) (h : -a ≤ a) : listMax [a, a, -a, -a, a] = a := by
  simp only [listMax]
  rw [max_eq_right h, max_eq_right h, max_self, max_self]

lemma listMin_rect_x (a : ℚ) (h : -a ≤ a) : listMin [a, a, -a, -a, a] = -a := by
  simp only [listMin]
  rw [min_eq_left h, min_self, min_eq_right h, min_eq_right h]

lemma listMax_rect_y (b : ℚ) (h : -b ≤ b) : listMax [-b, b, b, -b, -b] = b := by
  simp only [listMax]
  rw [max_self, max_eq_left h, max_self, max_eq_right h]

lemma listMin_rect_y (b : ℚ) (h : -b ≤ b) : listMin [-b, b, b, -b, -b] = -b := by
  simp only [listMin]
  rw [min_self, min_eq_right h, min_eq_right h, min_self]

lemma mx_rect_bbox (a b : ℚ) (ha : -a ≤ a) (hb : -b ≤ b) :
    bboxW [(a, -b), (a, b), (-a, b), (-a, -b), (a, -b)] = 2 * a ∧
    bboxH [(a, -b), (a, b), (-a, b), (-a, -b), (a, -b)] = 2 * b := by
  unfold bboxW bboxH
  simp only [List.map]
  constructor
  · rw [listMax_rect_x a ha, listMin_rect_x a ha]; ring
  · rw [listMax_rect_y b hb, listMin_rect_y b hb]; ring

lemma mx_cut_poly (k : ℚ) :
    firstSwitchPoly (cut_switch { kerf := k } Layer.switch {} (0, 0) initState) =
      [(7 - k, -(7 - k)), (7 - k, 7 - k), (-(7 - k), 7 - k), (-(7 - k), -(7 - k)),
       (7 - k, -(7 - k))] := by
  simp [firstSwitchPoly, cut_switch, stab_section, effective_kerf, initState, baseDims,
    mx_points, cutPoints, addCut, center, stab_offset, STABILIZERS, Prod.ext_iff]

/-- C4: a 1-unit mx/cherry key cut on the switch layer with grow 0 emits
exactly one profile — a closed 5-point rectangle with corners at
plus/minus `7 - kerf` (so (±7, ±7) at kerf 0) — and raising the kerf by
`Δ` shrinks the cutout's bounding box by exactly `2·Δ` on each axis. -/
theorem C4_mx_cutout_kerf (kf Δ : ℚ) (h1 : kf ≤ 7) (h2 : kf + Δ ≤ 7) : C4Prop kf Δ := by
  have ha : -(7 - kf) ≤ 7 - kf := by linarith
  have ha2 : -(7 - (kf + Δ)) ≤ 7 - (kf + Δ) := by linarith
  refine ⟨?_, ?_, ?_⟩
  · simp [cut_switch, stab_section, effective_kerf, initState, baseDims, mx_points,
      addCut, center, stab_offset, STABILIZERS, Prod.ext_iff]
  · rw [mx_cut_poly, mx_cut_poly, (mx_rect_bbox _ _ ha2 ha2).1, (mx_rect_bbox _ _ ha ha).1]
    ring
  · rw [mx_cut_poly, mx_cut_poly, (mx_rect_bbox _ _ ha2 ha2).2, (mx_rect_bbox _ _ ha ha).2]
    ring

/-- C4 (witness): the theorem at kerf 0 and increment 1. -/
theorem C4_witness : (0 : ℚ) ≤ 7 ∧ (0 : ℚ) + 1 ≤ 7 ∧ C4Prop 0 1 :=
  ⟨by norm_num, by norm_num, C4_mx_cutout_kerf 0 1 (by norm_num) (by norm_num)⟩

/-- C6 (counterexample): for a 1-wide, 2-tall key on the `top` layer
(kerf 0, default 19.05 spacing) the claimed keycap rectangle would have
half-width `(19.05/2)·2 + 0.5 = 19.55` and half-height `10.025`; the code
builds that rectangle but then rotates it 90 degrees (height > width), so
the emitted polygon has the two half-extents *swapped*: its corners are
(±10.025, ±19.55), the claimed corner (19.55, -10.025) is not among its
vertices, and its bounding-box width is 20.05, not 2·19.55. -/
theorem C6_counterexample :
    firstSwitchPoly (cut_switch { } Layer.top { w := 1, h := 2 } (0, 0) initState) =
      [(10.025, 19.55), (-10.025, 19.55), (-10.025, -19.55), (10.025, -19.55),
       (10.025, 19.55)] ∧
    ((19.05 / 2) * 2 + 0.5 - 0, -((19.05 / 2) + 0.5 - 0)) ∉
      firstSwitchPoly (cut_switch { } Layer.top { w := 1, h := 2 } (0, 0) initState) ∧
    ((19.05 / 2) * 2 + 0.5 - 0 : ℚ) = 19.55 ∧
    bboxW (firstSwitchPoly (cut_switch { } Layer.top { w := 1, h := 2 } (0, 0) initState)) =
      20.05 ∧
    (20.05 : ℚ) ≠ 2 * 19.55 := by
  have hpoly : firstSwitchPoly (cut_switch { } Layer.top { w := 1, h := 2 } (0, 0) initState) =
      [(10.025, 19.55), (-10.025, 19.55), (-10.025, -19.55), (10.025, -19.55),
       (10.025, 19.55)] := by
    simp [firstSwitchPoly, cut_switch, stab_section, effective_kerf, initState, topDims,
      baseDims, mx_points, rotate_points, cutPoints, addCut, center, stab_offset,
      STABILIZERS, Prod.ext_iff]
    norm_num
  refine ⟨hpoly, ?_, by norm_num, ?_, by norm_num⟩
  · rw [hpoly]
    norm_num [Prod.ext_iff]
  · rw [hpoly]
    norm_num [bboxW, listMax, listMin, max_def, min_def]

/-- C6 (amended): on the `top` layer `cut_switch` forces the mx/cherry
families regardless of the key's own switch/stab settings, emits exactly
one profile — the keycap-sized rectangle with half-extents
`A = (key_spacing/2)·(height if height > 1 else width) + 0.5 - kerf` and
`B = (key_spacing/2) + 0.5 - kerf` — and returns before any stabilizer
logic, so no stabilizer geometry and no diagnostic is emitted and only
`x_off` is additionally updated.  When height > width the template is
rotated 90 degrees, so the cut rectangle's x/y half-extents are `B`/`A`
(swapped); otherwise they are `A`/`B`. -/
theorem C6_amended_top_keycap (w h ks kf : ℚ) (c : Point) (st : EngineState) :
    let key : Key := { w := w, h := h, t := some SwitchType.alps, s := some StabType.costar }
    let A : ℚ := (if h > 1 then ks / 2 * h + 0.5 else ks / 2 * w + 0.5) - kf
    let B : ℚ := ks / 2 + 0.5 - kf
    let len : ℚ := if h > w then h else w
    let co : ℚ := if 2 ≤ len then stab_offset len else 0
    let st2 := cut_switch { key_spacing := ks, kerf := kf } Layer.top key c st
    st2.cuts = st.cuts ++
      [⟨CutTag.switchCut, (st.wp.1 + (if 0 < co then co else 0) + c.1, st.wp.2 + c.2),
        CutShape.poly (if h > w then [(B, A), (-B, A), (-B, -A), (B, -A), (B, A)]
          else [(A, -B), (A, B), (-A, B), (-A, -B), (A, -B)])⟩] ∧
    stabCuts st2 = stabCuts st ∧
    st2.diags = st.diags ∧
    st2.wp = (st.wp.1 + c.1, st.wp.2 + c.2) ∧
    st2.x_off = st.x_off + c.1 := by
  simp only []
  refine ⟨?_, ?_, ?_, ?_, ?_⟩ <;>
    simp [cut_switch, stabCuts, effective_kerf, topDims, baseDims, mx_points,
      rotate_points, addCut, center, plate_center_drop, Prod.ext_iff, List.filter_append] <;>
    split_ifs <;>
    simp [Prod.ext_iff] <;>
    ring_nf

/-- C9: for a key whose stabilizer lookup yields a positive center offset
(table sizes of 6 units), `cut_switch` moves the working center by the
offset with a discarded plate call, cuts the switch opening there, moves
back, and cuts the (cherry) stabilizer at the true key center — the
switch cut's recorded center is offset by `stab_offset w` while the
stabilizer cut and the final working point sit at the key center; and any
length of 2 units or more that is missing from the `STABILIZERS` table
falls back to the 2-unit half-distance 11.95. -/
theorem C9_offset_stab_cut (w : ℚ) (c : Point) (st : EngineState) (cfg : CaseConfig)
    (h3 : 3 ≤ w) (hco : 0 < stab_offset w) : C9Prop w c st cfg := by
  have hw1 : ¬((1 : ℚ) > w) := by linarith
  have hw2 : (2 : ℚ) ≤ w := by linarith
  have hw3 : ¬(w < 3) := by linarith
  refine ⟨?_, ?_, ?_, ?_, ?_⟩
  · simp [cut_switch, stab_section, effective_kerf, addCut, center, plate_center_drop,
      hw1, hw2, h3, hco, hw3, Prod.ext_iff]
    ring
  · simp [cut_switch, stab_section, effective_kerf, addCut, center, plate_center_drop,
      hw1, hw2, h3, hco, hw3, Prod.ext_iff]
    ring
  · simp [cut_switch, stab_section, effective_kerf, addCut, center, plate_center_drop,
      hw1, hw2, h3, hco, hw3, Prod.ext_iff]
  · intro l _ hnone
    unfold stab_x
    rw [hnone]
  · norm_num [STABILIZERS]

/-- C9 (witness): the theorem at the 6-unit key (table offset 9.525) cut
at (3, 4) from the initial state with a default configuration. -/
theorem C9_witness : (3 : ℚ) ≤ 6 ∧ 0 < stab_offset 6 ∧ C9Prop 6 (3, 4) initState {} :=
  ⟨by norm_num, by norm_num [stab_offset, STABILIZERS],
    C9_offset_stab_cut 6 (3, 4) initState {} (by norm_num)
      (by norm_num [stab_offset, STABILIZERS])⟩

/-- C8 (counterexample): a sandwich case with screw count 5 (odd, at
least 4) logs the invalid-configuration diagnostic but still cuts four
perimeter screw holes — the claim that no perimeter screw holes are cut
for an odd count fails. -/
theorem C8_counterexample :
    (sandwichHoleCuts (init_plate (sandwichCfg 100 60 0 2 5) Layer.bottom initState)).length
      = 4 ∧
    (4 : ℕ) ≠ 0 ∧
    "Invalid hole configuration! Need at least 4 holes and must be divisible by 2!" ∈
      (init_plate (sandwichCfg 100 60 0 2 5) Layer.bottom initState).diags := by
  refine ⟨?_, by norm_num, ?_⟩ <;>
    simp [init_plate, corner_section, case_section, extras_section, sandwichCfg,
      sandwichHoleCuts, layout_sandwich_holes, initState, sandwichRow, addCut, addDiag,
      center, plate_center, cut_plate_holes, cut_plate_polygons, cut_usb_hole]

/-- C8 (amended): for a sandwich case, a screw count below 4 cuts no
perimeter screw holes and logs a diagnostic; an odd screw count of at
least 4 logs the invalid-configuration diagnostic but still cuts the four
corner-pattern holes (the per-axis free-hole counts keep their initial
value 0); in both cases `init_plate` returns normally and the build
continues. -/
theorem C8_amended_screw_validation (W H k r : ℚ) (layer : Layer) (n m : ℕ)
    (hn : n < 4) (hm4 : 4 ≤ m) (hodd : m % 2 = 1) : C8Prop W H k r layer n m := by
  have hlt : ¬(4 ≤ n) := by omega
  have hne : ¬(m % 2 = 0) := by omega
  refine ⟨⟨?_, ?_⟩, ?_, ?_⟩ <;>
    simp [init_plate, corner_section, case_section, extras_section, sandwichCfg,
      sandwichHoleCuts, layout_sandwich_holes, initState, hlt, hm4, hne, sandwichRow,
      addCut, addDiag, center, plate_center, cut_plate_holes, cut_plate_polygons,
      cut_usb_hole]

/-- C8 (witness): the amended theorem at counts 3 and 5 on a 100-by-60
plate. -/
theorem C8_witness : C8Prop 100 60 0 2 Layer.bottom 3 5 :=
  C8_amended_screw_validation 100 60 0 2 Layer.bottom 3 5 (by norm_num) (by norm_num)
    (by norm_num)

/-! ## Working-point bookkeeping lemmas for claim C2 -/

lemma cut_at_wp (st : EngineState) (cx cy : ℚ) (t : CutTag) (sh : CutShape) :
    (plate_center (addCut (plate_center st cx cy) t sh) (-cx) (-cy)).wp = st.wp := by
  show (st.wp.1 + cx + -cx, st.wp.2 + cy + -cy) = st.wp
  exact Prod.ext (by ring) (by ring)

lemma cut_each_wp (t : CutTag) (sh : CutShape) (pts : List Point) (st : EngineState) :
    (cut_each t sh pts st).wp = st.wp := by
  induction pts generalizing st with
  | nil => rfl
  | cons c rest ih =>
      show (cut_each t sh rest
        (plate_center (addCut (plate_center st c.1 c.2) t sh) (-c.1) (-c.2))).wp = st.wp
      rw [ih, cut_at_wp]

lemma cut_holes_list_wp (k : ℚ) (holes : List (ℚ × ℚ × ℚ)) (st : EngineState) :
    (cut_holes_list k holes st).wp = st.wp := by
  induction holes generalizing st with
  | nil => rfl
  | cons h rest ih =>
      show (cut_holes_list k rest
        (plate_center (addCut (plate_center st h.1 h.2.1) .layerHole
          (.circle (h.2.2 - k))) (-h.1) (-h.2.1))).wp = st.wp
      rw [ih, cut_at_wp]

lemma sandwichRow_wp (dx dy r : ℚ) (n : ℕ) (st : EngineState) :
    (sandwichRow dx dy r n st).wp = (st.wp.1 + n * dx, st.wp.2 + n * dy) := by
  induction n generalizing st with
  | zero =>
      refine Prod.ext ?_ ?_
      · show st.wp.1 = st.wp.1 + ((0 : ℕ) : ℚ) * dx
        push_cast
        ring
      · show st.wp.2 = st.wp.2 + ((0 : ℕ) : ℚ) * dy
        push_cast
        ring
  | succ n ih =>
      show (sandwichRow dx dy r n (addCut (plate_center st dx dy)
        .sandwichHole (.circle r))).wp = _
      rw [ih]
      refine Prod.ext ?_ ?_
      · show st.wp.1 + dx + (n : ℚ) * dx = st.wp.1 + ((n + 1 : ℕ) : ℚ) * dx
        push_cast
        ring
      · show st.wp.2 + dy + (n : ℚ) * dy = st.wp.2 + ((n + 1 : ℕ) : ℚ) * dy
        push_cast
        ring

lemma corner_section_wp (cfg : CaseConfig) (inset : Bool) (st : EngineState) :
    (corner_section cfg inset st).wp = st.wp := by
  unfold corner_section
  cases cfg.corner_type <;> split_ifs <;> rfl

lemma case_section_wp (cfg : CaseConfig) (inset : Bool) (lsc : ℕ) (lsr : ℚ)
    (st : EngineState) :
    (case_section cfg inset lsc lsr st).wp = st.wp := by
  unfold case_section
  dsimp only
  split_ifs with h1 h2 h3 h4
  · rfl
  · rw [cut_each_wp, cut_each_wp]
  · rcases hls : layout_sandwich_holes cfg.width cfg.height cfg.kerf lsc with _ | p <;>
      simp only [hls] <;>
      simp only [center_wp, plate_center_wp, sandwichRow_wp, addDiag_wp] <;>
      exact Prod.ext (by push_cast; ring) (by push_cast; ring)
  · simp only [center_wp, addDiag_wp]
    exact Prod.ext (by ring) (by ring)
  · rfl

lemma cut_plate_holes_wp (cfg : CaseConfig) (holes : List (ℚ × ℚ × ℚ))
    (st : EngineState) : (cut_plate_holes cfg holes st).wp = st.wp := by
  unfold cut_plate_holes
  dsimp only
  rw [center_wp, cut_holes_list_wp, center_wp]
  exact Prod.ext (by ring) (by ring)

lemma cut_plate_polygons_wp (polys : List (List Point)) (st : EngineState) :
    (cut_plate_polygons polys st).wp = st.wp := by
  induction polys generalizing st with
  | nil => rfl
  | cons p rest ih => exact ih (addCut st .layerPoly (.poly p))

lemma cut_usb_hole_wp (cfg : CaseConfig) (layer : Layer) (st : EngineState) :
    (cut_usb_hole cfg layer st).wp = st.wp := by
  unfold cut_usb_hole
  split_ifs <;> rfl

lemma extras_section_wp (cfg : CaseConfig) (layer : Layer) (st : EngineState) :
    (extras_section cfg layer st).wp = st.wp := by
  unfold extras_section
  dsimp only
  rcases hh : (cfg.layers layer).holes with _ | hs <;>
    rcases hp : (cfg.layers layer).polygons with _ | ps <;>
    simp only [hh, hp] <;>
    split_ifs <;>
    simp only [cut_usb_hole_wp, cut_plate_polygons_wp, cut_plate_holes_wp]

lemma init_plate_wp (cfg : CaseConfig) (layer : Layer) (st : EngineState) :
    (init_plate cfg layer st).wp = (0, 0) := by
  unfold init_plate
  rw [show ∀ s : EngineState, ({ s with origin := (0, 0) } : EngineState).wp = s.wp
      from fun _ => rfl]
  rw [extras_section_wp, case_section_wp, corner_section_wp]

lemma init_plate_origin (cfg : CaseConfig) (layer : Layer) (st : EngineState) :
    (init_plate cfg layer st).origin = (0, 0) := rfl

lemma drift_center (st : EngineState) (x y : ℚ) : drift (center st x y) = drift st := by
  unfold drift
  simp only [center_wp, center_origin]
  exact Prod.ext (by ring) (by ring)

lemma drift_cut_switch (cfg : CaseConfig) (layer : Layer) (key : Key) (c : Point)
    (st : EngineState) : drift (cut_switch cfg layer key c st) = drift st := by
  unfold drift
  rw [cut_switch_wp, cut_switch_origin]
  exact Prod.ext (by ring) (by ring)

lemma drift_processKey (cfg : CaseConfig) (layer : Layer) (fr fk : Bool) (key : Key)
    (ts : TravState) : drift (processKey cfg layer fr fk key ts).engine = drift ts.engine := by
  unfold processKey
  dsimp only
  split_ifs <;>
    simp only [drift_cut_switch] <;>
    (first
      | rfl
      | (show drift (center ts.engine _ _) = _; rw [drift_center]))

lemma drift_processKeys (cfg : CaseConfig) (layer : Layer) (fr : Bool) (keys : List Key)
    (fk : Bool) (ts : TravState) :
    drift (processKeys cfg layer fr fk keys ts).engine = drift ts.engine := by
  induction keys generalizing fk ts with
  | nil => rfl
  | cons key rest ih =>
      show drift (processKeys cfg layer fr false rest
        (processKey cfg layer fr fk key ts)).engine = _
      rw [ih, drift_processKey]

lemma drift_processRows (cfg : CaseConfig) (layer : Layer) (rows : List (List Key))
    (fr : Bool) (ts : TravState) :
    drift (processRows cfg layer fr rows ts).engine = drift ts.engine := by
  induction rows generalizing fr ts with
  | nil => rfl
  | cons row rest ih =>
      show drift (processRows cfg layer false rest
        (processKeys cfg layer fr true row ts)).engine = _
      rw [ih, drift_processKeys]

/-- C2: cursor closure.  For every configuration, layout, layer and
starting state, every displacement the traversal applies through
`KeyboardCase.center` is matched in the `origin` accumulator (the
untracked offset-stab plate moves cancel within each `cut_switch`), so
when `create_switch_layer` returns, the `origin` accumulator is (0, 0)
and the recenter call has brought the working point back to the true
plate center. -/
theorem C2_cursor_closure (cfg : CaseConfig) (layout : List (List Key)) (layer : Layer)
    (st : EngineState) :
    (create_switch_layer cfg layout layer st).origin = (0, 0) ∧
    (create_switch_layer cfg layout layer st).wp = (0, 0) := by
  constructor
  · rfl
  · show (recenter (processRows cfg layer true layout
      ⟨center (init_plate cfg layer st) (-cfg.width / 2) (-cfg.height / 2), none, 0⟩).engine).wp
      = (0, 0)
    have hd : drift (processRows cfg layer true layout
        ⟨center (init_plate cfg layer st) (-cfg.width / 2) (-cfg.height / 2), none, 0⟩).engine
        = (0, 0) := by
      rw [drift_processRows]
      show drift (center (init_plate cfg layer st) (-cfg.width / 2) (-cfg.height / 2)) = (0, 0)
      rw [drift_center]
      unfold drift
      rw [init_plate_wp, init_plate_origin]
      exact Prod.ext (by ring) (by ring)
    set target := (processRows cfg layer true layout
      ⟨center (init_plate cfg layer st) (-cfg.width / 2) (-cfg.height / 2), none, 0⟩).engine
    show (target.wp.1 + -target.origin.1, target.wp.2 + -target.origin.2) = (0, 0)
    have h1 : target.wp.1 - target.origin.1 = 0 := congrArg Prod.fst hd
    have h2 : target.wp.2 - target.origin.2 = 0 := congrArg Prod.snd hd
    exact Prod.ext (by dsimp only at h1 ⊢; linarith) (by dsimp only at h2 ⊢; linarith)

/-- C1: row-wrap correctness.  For a layout of two rows of three 1-unit
keys (no explicit x/y offsets) and any key spacing, paddings, envelope,
kerf and grow settings, the traversal of `create_switch_layer` cuts six
switch openings and the fourth cut (the second row's first key) lands at
exactly the same absolute x coordinate as the first cut (the first row's
first key): the within-row displacements accumulated in `x_off` are
exactly undone at the row change. -/
theorem C1_row_wrap (s xp xpc yp ypc W H kf gx gy : ℚ) :
    let u : Key := {}
    let centers := switchCutCenters (create_switch_layer
      (plainCfg s xp xpc yp ypc W H kf gx gy) [[u, u, u], [u, u, u]]
      Layer.switch initState)
    (centers.getD 3 (0, 0)).1 = (centers.getD 0 (0, 0)).1 ∧ centers.length = 6 := by
  set_option maxRecDepth 4000 in
  simp [plainCfg, create_switch_layer, init_plate, corner_section, case_section,
    extras_section, processRows, processKeys, processKey, cut_switch, stab_section,
    effective_kerf, initState, baseDims, mx_points, addCut, addDiag, center,
    plate_center, plate_center_drop, recenter, switchCutCenters, cutPoints,
    stab_offset, STABILIZERS, Prod.ext_iff]
  ring_nf

end KbBuilder
